import Mathlib

/-!
Verification of the eCourts India scraper wrapper (ecourts_scraper.py,
web_api.py) against its specification.  The Python code is shallowly
embedded: JSON documents are the inductive `Json`; the process state
(file system, created directories, console streams, issued HTTP requests,
and the scraper instance's mutable configuration) is the structure
`World`; the single remote call that a scraper operation performs is an
explicit `TransportResult` argument; Python exceptions that the code does
not catch are `Except.error` results.
-/

/-- JSON documents, as produced by `json.loads` / consumed by `json.dump`.
Numbers are modelled as integers (the repository never manipulates numeric
payload values, and the claims under study involve none). -/
inductive Json where
  | null
  | bool (b : Bool)
  | num (n : Int)
  | str (s : String)
  | arr (xs : List Json)
  | obj (kvs : List (String × Json))

/-- Python truthiness of a decoded JSON value: `None`, `False`, `0`, `""`,
`[]` and the empty dict are falsy, everything else truthy. -/
def Json.truthy : Json → Bool
  | .null => false
  | .bool b => b
  | .num n => n != 0
  | .str s => s != ""
  | .arr xs => !xs.isEmpty
  | .obj kvs => !kvs.isEmpty

/-- Pure dictionary lookup with default, for use in specifications:
the value of key `k` in an object, or `d` when absent or not an object. -/
def Json.getD (v : Json) (k : String) (d : Json) : Json :=
  match v with
  | .obj kvs => (((kvs.find? (fun kv => kv.1 == k))).map (fun kv => kv.2)).getD d
  | _ => d

/-- Python `x.get(k, d)` on a decoded JSON value: succeeds on dicts, raises
`AttributeError` on every other type. -/
def pyGetD (v : Json) (k : String) (d : Json) : Except String Json :=
  match v with
  | .obj kvs => .ok ((((kvs.find? (fun kv => kv.1 == k))).map (fun kv => kv.2)).getD d)
  | .arr _ => .error "AttributeError: list object has no attribute get"
  | .str _ => .error "AttributeError: str object has no attribute get"
  | .num _ => .error "AttributeError: int object has no attribute get"
  | .bool _ => .error "AttributeError: bool object has no attribute get"
  | .null => .error "AttributeError: NoneType object has no attribute get"

/-- Bounded infix test on character lists (Python substring membership). -/
def charsInfix (needle hay : List Char) : Bool :=
  (List.range (hay.length + 1)).any (fun i => needle.isPrefixOf (hay.drop i))

/-- Python `k in v` for a string key `k` and a decoded JSON value `v`:
key membership for dicts, element equality for lists, substring test for
strings, `TypeError` otherwise. -/
def pyIn (k : String) (v : Json) : Except String Bool :=
  match v with
  | .obj kvs => .ok (kvs.any (fun kv => kv.1 == k))
  | .arr xs => .ok (xs.any (fun x => match x with | .str s => s == k | _ => false))
  | .str s => .ok (charsInfix k.toList s.toList)
  | _ => .error "TypeError: argument is not iterable"

/-- Python `v[k]` for a string key: dict lookup (possibly `KeyError`),
`TypeError` on any other type. -/
def pyIndex (v : Json) (k : String) : Except String Json :=
  match v with
  | .obj kvs =>
    match kvs.find? (fun kv => kv.1 == k) with
    | some kv => .ok kv.2
    | none => .error ("KeyError: " ++ k)
  | .arr _ => .error "TypeError: list indices must be integers or slices"
  | .str _ => .error "TypeError: string indices must be integers"
  | _ => .error "TypeError: value is not subscriptable"

/-- Decimal digit characters. -/
def decChar : Nat → Char
  | 0 => '0'
  | 1 => '1'
  | 2 => '2'
  | 3 => '3'
  | 4 => '4'
  | 5 => '5'
  | 6 => '6'
  | 7 => '7'
  | 8 => '8'
  | _ => '9'

/-- Numeric value of a decimal digit character. -/
def digitVal (c : Char) : Nat := c.toNat - 48

/-- Lowercase hexadecimal digit characters. -/
def hexChar : Nat → Char
  | 0 => '0'
  | 1 => '1'
  | 2 => '2'
  | 3 => '3'
  | 4 => '4'
  | 5 => '5'
  | 6 => '6'
  | 7 => '7'
  | 8 => '8'
  | 9 => '9'
  | 10 => 'a'
  | 11 => 'b'
  | 12 => 'c'
  | 13 => 'd'
  | 14 => 'e'
  | _ => 'f'

/-- Value of a hexadecimal digit character, upper or lower case. -/
def hexVal (c : Char) : Option Nat :=
  if c.isDigit then some (c.toNat - 48)
  else if 'a' ≤ c && c ≤ 'f' then some (c.toNat - 87)
  else if 'A' ≤ c && c ≤ 'F' then some (c.toNat - 55)
  else none

/-- Decimal representation of a natural number, as `repr` prints it. -/
def natToChars (m : Nat) : List Char :=
  if m = 0 then ['0'] else ((Nat.digits 10 m).reverse).map decChar

/-- Decimal representation of an integer, as `repr` prints it. -/
def intToChars (n : Int) : List Char :=
  if n < 0 then '-' :: natToChars n.natAbs else natToChars n.toNat

/-- The escape sequence `json.dump` (with `ensure_ascii=False`) emits for one
character: quote and backslash are backslash-escaped, the named control
characters use their short forms, other control characters use `\u00XX`,
and everything else is emitted verbatim. -/
def escapeChar (c : Char) : List Char :=
  if c = '"' then ['\\', '"']
  else if c = '\\' then ['\\', '\\']
  else if c = '\n' then ['\\', 'n']
  else if c = '\t' then ['\\', 't']
  else if c = '\r' then ['\\', 'r']
  else if c = '\x08' then ['\\', 'b']
  else if c = '\x0c' then ['\\', 'f']
  else if c.toNat < 32 then
    ['\\', 'u', '0', '0', hexChar (c.toNat / 16), hexChar (c.toNat % 16)]
  else [c]

/-- Escaped character list of a string, per `escapeChar`. -/
def escape (s : String) : List Char := (s.data.map escapeChar).flatten

/-- A double-quoted JSON string literal. -/
def dumpStr (s : String) : List Char := '"' :: escape s ++ ['"']

/-- Indentation emitted by `json.dump(..., indent=2)` at nesting depth `d`. -/
def ind (d : Nat) : List Char := List.replicate (2 * d) ' '

mutual

/-- Characters emitted by `json.dump(v, f, indent=2, ensure_ascii=False)`
for a value `v` whose opening token sits at nesting depth `d`. -/
def Json.dumpAt : Nat → Json → List Char
  | _, .null => ['n', 'u', 'l', 'l']
  | _, .bool true => ['t', 'r', 'u', 'e']
  | _, .bool false => ['f', 'a', 'l', 's', 'e']
  | _, .num n => intToChars n
  | _, .str s => dumpStr s
  | _, .arr [] => ['[', ']']
  | d, .arr (x :: xs) =>
    '[' :: '\n' :: (ind (d + 1) ++ (Json.dumpAt (d + 1) x ++
      (Json.dumpItems (d + 1) xs ++ ('\n' :: (ind d ++ [']'])))))
  | _, .obj [] => ['\x7b', '\x7d']
  | d, .obj (kv :: kvs) =>
    '\x7b' :: '\n' :: (ind (d + 1) ++ ('"' :: (escape kv.1 ++ ('"' :: ':' :: ' ' ::
      (Json.dumpAt (d + 1) kv.2 ++
        (Json.dumpFields (d + 1) kvs ++ ('\n' :: (ind d ++ ['\x7d']))))))))

/-- Second and later array items, each preceded by a comma, newline and
indentation at depth `d`. -/
def Json.dumpItems : Nat → List Json → List Char
  | _, [] => []
  | d, x :: xs =>
    ',' :: '\n' :: (ind d ++ (Json.dumpAt d x ++ Json.dumpItems d xs))

/-- Second and later object entries, each preceded by a comma, newline and
indentation at depth `d`. -/
def Json.dumpFields : Nat → List (String × Json) → List Char
  | _, [] => []
  | d, kv :: kvs =>
    ',' :: '\n' :: (ind d ++ ('"' :: (escape kv.1 ++ ('"' :: ':' :: ' ' ::
      (Json.dumpAt d kv.2 ++ Json.dumpFields d kvs)))))

end

/-- The file content `json.dump(v, f, indent=2, ensure_ascii=False)` writes. -/
def dumps (v : Json) : String := String.mk (Json.dumpAt 0 v)

/-- JSON insignificant whitespace. -/
def isWs (c : Char) : Bool := c = ' ' || c = '\n' || c = '\t' || c = '\r'

/-- Drop leading insignificant whitespace. -/
def skipWs (s : List Char) : List Char := s.dropWhile isWs

/-- Decoded value of a single-character escape sequence. -/
def unescChar (e : Char) : Option Char :=
  if e = '"' then some '"'
  else if e = '\\' then some '\\'
  else if e = '/' then some '/'
  else if e = 'n' then some '\n'
  else if e = 't' then some '\t'
  else if e = 'r' then some '\r'
  else if e = 'b' then some '\x08'
  else if e = 'f' then some '\x0c'
  else none

/-- Body of a JSON string literal after the opening quote: the decoded
characters and the input remaining after the closing quote. -/
def parseStringBody : List Char → Option (List Char × List Char)
  | [] => none
  | c :: r =>
    if c = '"' then some ([], r)
    else if c = '\\' then
      match r with
      | [] => none
      | e :: r2 =>
        if e = 'u' then
          match r2 with
          | a :: b :: c2 :: d :: r3 =>
            match hexVal a, hexVal b, hexVal c2, hexVal d with
            | some ha, some hb, some hc, some hd =>
              match parseStringBody r3 with
              | some (cs, rest) =>
                some (Char.ofNat (((ha * 16 + hb) * 16 + hc) * 16 + hd) :: cs, rest)
              | none => none
            | _, _, _, _ => none
          | _ => none
        else
          match unescChar e with
          | some c2 =>
            match parseStringBody r2 with
            | some (cs, rest) => some (c2 :: cs, rest)
            | none => none
          | none => none
    else
      match parseStringBody r with
      | some (cs, rest) => some (c :: cs, rest)
      | none => none

/-- A run of decimal digits and its value. -/
def parseNum (s : List Char) : Option (Nat × List Char) :=
  let ds := s.takeWhile Char.isDigit
  if ds.isEmpty then none
  else some (ds.foldl (fun a c => 10 * a + digitVal c) 0, s.dropWhile Char.isDigit)

mutual

/-- Recursive-descent JSON value parser (the model of `json.loads`), with a
structural fuel budget so that it is executable by the kernel. -/
def parseVal : Nat → List Char → Option (Json × List Char)
  | 0, _ => none
  | f + 1, s =>
    match skipWs s with
    | [] => none
    | c :: r =>
      if c = '"' then
        match parseStringBody r with
        | some (cs, r2) => some (.str (String.mk cs), r2)
        | none => none
      else if c = '[' then
        match skipWs r with
        | [] => none
        | c2 :: r2 =>
          if c2 = ']' then some (.arr [], r2)
          else
            match parseVal f (c2 :: r2) with
            | some (v, r3) =>
              match parseArrRest f r3 with
              | some (vs, r4) => some (.arr (v :: vs), r4)
              | none => none
            | none => none
      else if c = '\x7b' then
        match skipWs r with
        | [] => none
        | c2 :: r2 =>
          if c2 = '\x7d' then some (.obj [], r2)
          else if c2 = '"' then
            match parseStringBody r2 with
            | some (ks, r3) =>
              match skipWs r3 with
              | ':' :: r4 =>
                match parseVal f r4 with
                | some (v, r5) =>
                  match parseObjRest f r5 with
                  | some (kvs, r6) => some (.obj ((String.mk ks, v) :: kvs), r6)
                  | none => none
                | none => none
              | _ => none
            | none => none
          else none
      else if c = 't' then
        match r with
        | 'r' :: 'u' :: 'e' :: r2 => some (.bool true, r2)
        | _ => none
      else if c = 'f' then
        match r with
        | 'a' :: 'l' :: 's' :: 'e' :: r2 => some (.bool false, r2)
        | _ => none
      else if c = 'n' then
        match r with
        | 'u' :: 'l' :: 'l' :: r2 => some (.null, r2)
        | _ => none
      else if c = '-' then
        match parseNum r with
        | some (m, r2) => some (.num (-(m : Int)), r2)
        | none => none
      else if c.isDigit then
        match parseNum (c :: r) with
        | some (m, r2) => some (.num (m : Int), r2)
        | none => none
      else none

/-- After one array item: either a comma and a further item, or the
closing bracket. -/
def parseArrRest : Nat → List Char → Option (List Json × List Char)
  | 0, _ => none
  | f + 1, s =>
    match skipWs s with
    | [] => none
    | c :: r =>
      if c = ']' then some ([], r)
      else if c = ',' then
        match parseVal f r with
        | some (v, r2) =>
          match parseArrRest f r2 with
          | some (vs, r3) => some (v :: vs, r3)
          | none => none
        | none => none
      else none

/-- After one object entry: either a comma and a further entry, or the
closing brace. -/
def parseObjRest : Nat → List Char → Option (List (String × Json) × List Char)
  | 0, _ => none
  | f + 1, s =>
    match skipWs s with
    | [] => none
    | c :: r =>
      if c = '\x7d' then some ([], r)
      else if c = ',' then
        match skipWs r with
        | '"' :: r2 =>
          match parseStringBody r2 with
          | some (ks, r3) =>
            match skipWs r3 with
            | ':' :: r4 =>
              match parseVal f r4 with
              | some (v, r5) =>
                match parseObjRest f r5 with
                | some (kvs, r6) => some ((String.mk ks, v) :: kvs, r6)
                | none => none
              | none => none
            | _ => none
          | none => none
        | _ => none
      else none

end

/-- The model of `json.loads`: parse a complete document, allowing trailing
whitespace only.  The fuel `s.length + 1` suffices for every string that
parses at all, and in particular for every output of `dumps`. -/
def loads (s : String) : Option Json :=
  match parseVal (s.length + 1) s.toList with
  | some (v, rest) => if skipWs rest = [] then some v else none
  | none => none

example : loads "\x7b\"is_listed\": true\x7d" = some (Json.obj [("is_listed", Json.bool true)]) := rfl

example : loads "[]" = some (Json.arr []) := rfl

example : loads "not json" = none := rfl

example : loads "[\n  null,\n  -12\n]" = some (Json.arr [Json.null, Json.num (-12)]) := rfl

example : dumps (Json.obj [("a", Json.arr [Json.num 1])]) = "\x7b\n  \"a\": [\n    1\n  ]\n\x7d" := by
  simp [dumps, Json.dumpAt, Json.dumpItems, intToChars, natToChars, ind, dumpStr, escape, escapeChar]
  rfl

mutual

/-- Fuel measure of a JSON value: an upper bound on the recursion depth the
parser needs to read its printed form back. -/
def Json.size : Json → Nat
  | .null => 1
  | .bool _ => 1
  | .num _ => 1
  | .str _ => 1
  | .arr xs => 1 + Json.sizeItems xs
  | .obj kvs => 1 + Json.sizeFields kvs

/-- Fuel measure of an array tail. -/
def Json.sizeItems : List Json → Nat
  | [] => 1
  | x :: xs => 1 + Json.size x + Json.sizeItems xs

/-- Fuel measure of an object tail. -/
def Json.sizeFields : List (String × Json) → Nat
  | [] => 1
  | kv :: kvs => 1 + Json.size kv.2 + Json.sizeFields kvs

end

theorem skipWs_not_ws (c : Char) (r : List Char) (h : isWs c = false) :
    skipWs (c :: r) = c :: r := by
  simp [skipWs, List.dropWhile_cons, h]

theorem skipWs_ws (c : Char) (r : List Char) (h : isWs c = true) :
    skipWs (c :: r) = skipWs r := by
  simp [skipWs, List.dropWhile_cons, h]

theorem skipWs_replicate (n : Nat) (r : List Char) :
    skipWs (List.replicate n ' ' ++ r) = skipWs r := by
  induction n with
  | zero => simp
  | succ n ih =>
    rw [List.replicate_succ, List.cons_append, skipWs_ws _ _ (by decide)]
    exact ih

theorem skipWs_ind (d : Nat) (r : List Char) : skipWs (ind d ++ r) = skipWs r :=
  skipWs_replicate _ r

theorem skipWs_idem (s : List Char) : skipWs (skipWs s) = skipWs s := by
  induction s with
  | nil => rfl
  | cons c r ih =>
    by_cases h : isWs c = true
    · rw [skipWs_ws c r h]; exact ih
    · have h' : isWs c = false := by simpa using h
      rw [skipWs_not_ws c r h', skipWs_not_ws c r h']

theorem parseVal_skipWs (f : Nat) (s : List Char) :
    parseVal f (skipWs s) = parseVal f s := by
  cases f with
  | zero => rfl
  | succ f =>
    unfold parseVal
    rw [skipWs_idem]

theorem decChar_isDigit (k : Nat) (h : k < 10) : (decChar k).isDigit = true := by
  interval_cases k <;> decide

theorem digitVal_decChar (k : Nat) (h : k < 10) : digitVal (decChar k) = k := by
  interval_cases k <;> decide

theorem isDigit_char_ne (c : Char) (h : c.isDigit = true) (c' : Char)
    (h' : c'.isDigit = false) : c ≠ c' := by
  intro e
  rw [e, h'] at h
  cases h

theorem isDigit_not_ws (c : Char) (h : c.isDigit = true) : isWs c = false := by
  have h1 : c ≠ ' ' := isDigit_char_ne c h ' ' (by decide)
  have h2 : c ≠ '\n' := isDigit_char_ne c h '\n' (by decide)
  have h3 : c ≠ '\t' := isDigit_char_ne c h '\t' (by decide)
  have h4 : c ≠ '\r' := isDigit_char_ne c h '\r' (by decide)
  simp [isWs, h1, h2, h3, h4]

/-- Lists whose head, if any, is not a digit; number parsing stops cleanly
in front of them. -/
def numSafe (l : List Char) : Prop := ∀ c t, l = c :: t → c.isDigit = false

theorem numSafe_nil : numSafe [] := by
  intro c t h
  cases h

theorem takeWhile_all_append (p : Char → Bool) (a b : List Char)
    (ha : ∀ c ∈ a, p c = true) (hb : ∀ c t, b = c :: t → p c = false) :
    (a ++ b).takeWhile p = a ∧ (a ++ b).dropWhile p = b := by
  induction a with
  | nil =>
    simp only [List.nil_append]
    cases b with
    | nil => simp
    | cons c t =>
      have hc := hb c t rfl
      simp [List.takeWhile_cons, List.dropWhile_cons, hc]
  | cons c a ih =>
    have hc := ha c (by simp)
    have ih' := ih (fun x hx => ha x (by simp [hx]))
    simp [List.takeWhile_cons, List.dropWhile_cons, hc, ih'.1, ih'.2]

theorem natToChars_digits (m : Nat) : ∀ c ∈ natToChars m, c.isDigit = true := by
  intro c hc
  unfold natToChars at hc
  by_cases hm : m = 0
  · simp [hm] at hc
    subst hc
    decide
  · simp only [hm, if_false, List.mem_map] at hc
    obtain ⟨k, hk, rfl⟩ := hc
    exact decChar_isDigit k (Nat.digits_lt_base (by norm_num) (List.mem_reverse.mp hk))

theorem natToChars_ne_nil (m : Nat) : natToChars m ≠ [] := by
  unfold natToChars
  by_cases hm : m = 0
  · simp [hm]
  · simp only [hm, if_false, ne_eq, List.map_eq_nil_iff, List.reverse_eq_nil_iff]
    exact Nat.digits_ne_nil_iff_ne_zero.mpr hm

theorem natToChars_head_digit (m : Nat) :
    ∃ c t, natToChars m = c :: t ∧ c.isDigit = true := by
  cases h : natToChars m with
  | nil => exact absurd h (natToChars_ne_nil m)
  | cons c t =>
    refine ⟨c, t, rfl, natToChars_digits m c ?_⟩
    rw [h]
    simp

theorem foldl_digits_reverse (L : List Nat) (a : Nat) :
    L.reverse.foldl (fun x y => 10 * x + y) a = a * 10 ^ L.length + Nat.ofDigits 10 L := by
  induction L generalizing a with
  | nil => simp
  | cons k ks ih =>
    rw [List.reverse_cons, List.foldl_append]
    simp only [List.foldl_cons, List.foldl_nil]
    rw [ih]
    simp only [Nat.ofDigits_cons, List.length_cons, pow_succ]
    ring

theorem digits_fold_val (m : Nat) :
    (natToChars m).foldl (fun a c => 10 * a + digitVal c) 0 = m := by
  unfold natToChars
  by_cases hm : m = 0
  · simp [hm]
    decide
  · simp only [hm, if_false]
    rw [List.foldl_map]
    have hcong : (Nat.digits 10 m).reverse.foldl (fun x k => 10 * x + digitVal (decChar k)) 0 =
        (Nat.digits 10 m).reverse.foldl (fun x k => 10 * x + k) 0 := by
      apply List.foldl_ext
      intro a k hk
      rw [digitVal_decChar k (Nat.digits_lt_base (by norm_num) (List.mem_reverse.mp hk))]
    rw [hcong, foldl_digits_reverse, Nat.ofDigits_digits]
    simp

theorem parseNum_natToChars (m : Nat) (rest : List Char) (hrest : numSafe rest) :
    parseNum (natToChars m ++ rest) = some (m, rest) := by
  obtain ⟨ht, hd⟩ := takeWhile_all_append Char.isDigit (natToChars m) rest
    (natToChars_digits m) hrest
  unfold parseNum
  rw [ht, hd]
  have hne : (natToChars m).isEmpty = false := by
    cases h : natToChars m with
    | nil => exact absurd h (natToChars_ne_nil m)
    | cons c t => rfl
  simp only [hne, Bool.false_eq_true, if_false, digits_fold_val]

theorem hexVal_hexChar (k : Nat) (h : k < 16) : hexVal (hexChar k) = some k := by
  interval_cases k <;> decide

theorem parseStringBody_escape (cs : List Char) (t : List Char) :
    parseStringBody ((cs.map escapeChar).flatten ++ '"' :: t) = some (cs, t) := by
  induction cs with
  | nil =>
    rw [List.map_nil, List.flatten_nil, List.nil_append, parseStringBody.eq_def]
    simp
  | cons c cs ih =>
    simp only [List.map_cons, List.flatten_cons, List.append_assoc]
    by_cases h1 : c = '"'
    · subst h1
      rw [show escapeChar '"' = ['\\', '"'] from by decide]
      simp only [List.cons_append, List.nil_append]
      rw [parseStringBody.eq_def]
      simp [unescChar, ih]
    · by_cases h2 : c = '\\'
      · subst h2
        rw [show escapeChar '\\' = ['\\', '\\'] from by decide]
        simp only [List.cons_append, List.nil_append]
        rw [parseStringBody.eq_def]
        simp [unescChar, ih]
      · by_cases h3 : c = '\n'
        · subst h3
          rw [show escapeChar '\n' = ['\\', 'n'] from by decide]
          simp only [List.cons_append, List.nil_append]
          rw [parseStringBody.eq_def]
          simp [unescChar, ih]
        · by_cases h4 : c = '\t'
          · subst h4
            rw [show escapeChar '\t' = ['\\', 't'] from by decide]
            simp only [List.cons_append, List.nil_append]
            rw [parseStringBody.eq_def]
            simp [unescChar, ih]
          · by_cases h5 : c = '\r'
            · subst h5
              rw [show escapeChar '\r' = ['\\', 'r'] from by decide]
              simp only [List.cons_append, List.nil_append]
              rw [parseStringBody.eq_def]
              simp [unescChar, ih]
            · by_cases h6 : c = '\x08'
              · subst h6
                rw [show escapeChar '\x08' = ['\\', 'b'] from by decide]
                simp only [List.cons_append, List.nil_append]
                rw [parseStringBody.eq_def]
                simp [unescChar, ih]
              · by_cases h7 : c = '\x0c'
                · subst h7
                  rw [show escapeChar '\x0c' = ['\\', 'f'] from by decide]
                  simp only [List.cons_append, List.nil_append]
                  rw [parseStringBody.eq_def]
                  simp [unescChar, ih]
                · by_cases h8 : c.toNat < 32
                  · have hdiv : c.toNat / 16 < 16 := by omega
                    have hmod : c.toNat % 16 < 16 := Nat.mod_lt _ (by norm_num)
                    have hhi := hexVal_hexChar _ hdiv
                    have hlo := hexVal_hexChar _ hmod
                    have h0 : hexVal '0' = some 0 := by decide
                    have hesc : escapeChar c =
                        ['\\', 'u', '0', '0', hexChar (c.toNat / 16), hexChar (c.toNat % 16)] := by
                      unfold escapeChar
                      rw [if_neg h1, if_neg h2, if_neg h3, if_neg h4, if_neg h5, if_neg h6,
                        if_neg h7, if_pos h8]
                    rw [hesc]
                    simp only [List.cons_append, List.nil_append]
                    rw [parseStringBody.eq_def]
                    have hval : ((0 * 16 + 0) * 16 + c.toNat / 16) * 16 + c.toNat % 16 = c.toNat := by
                      omega
                    have hval2 : c.toNat / 16 * 16 + c.toNat % 16 = c.toNat := by omega
                    simp [h0, hhi, hlo, ih, hval, hval2, Char.ofNat_toNat]
                  · have hesc : escapeChar c = [c] := by
                      unfold escapeChar
                      rw [if_neg h1, if_neg h2, if_neg h3, if_neg h4, if_neg h5, if_neg h6,
                        if_neg h7, if_neg h8]
                    rw [hesc]
                    simp only [List.cons_append, List.nil_append]
                    rw [parseStringBody.eq_def]
                    simp [h1, h2, ih]

theorem dumpAt_head (d : Nat) (v : Json) :
    ∃ c t, Json.dumpAt d v = c :: t ∧ isWs c = false ∧ c ≠ ']' ∧ c ≠ '\x7d' := by
  cases v with
  | null => exact ⟨'n', ['u', 'l', 'l'], by simp [Json.dumpAt], by decide, by decide, by decide⟩
  | bool b =>
    cases b with
    | true => exact ⟨'t', ['r', 'u', 'e'], by simp [Json.dumpAt], by decide, by decide, by decide⟩
    | false =>
      exact ⟨'f', ['a', 'l', 's', 'e'], by simp [Json.dumpAt], by decide, by decide, by decide⟩
  | num n =>
    by_cases hn : n < 0
    · exact ⟨'-', natToChars n.natAbs, by simp [Json.dumpAt, intToChars, hn],
        by decide, by decide, by decide⟩
    · obtain ⟨c, t, he, hdg⟩ := natToChars_head_digit n.toNat
      exact ⟨c, t, by simp [Json.dumpAt, intToChars, hn, he], isDigit_not_ws c hdg,
        isDigit_char_ne c hdg ']' (by decide), isDigit_char_ne c hdg '\x7d' (by decide)⟩
  | str s =>
    exact ⟨'"', escape s ++ ['"'], by simp [Json.dumpAt, dumpStr], by decide, by decide, by decide⟩
  | arr xs =>
    cases xs with
    | nil => exact ⟨'[', [']'], by simp [Json.dumpAt], by decide, by decide, by decide⟩
    | cons x xs =>
      exact ⟨'[', '\n' :: (ind (d + 1) ++ (Json.dumpAt (d + 1) x ++
        (Json.dumpItems (d + 1) xs ++ ('\n' :: (ind d ++ [']']))))),
        by simp [Json.dumpAt], by decide, by decide, by decide⟩
  | obj kvs =>
    cases kvs with
    | nil => exact ⟨'\x7b', ['\x7d'], by simp [Json.dumpAt], by decide, by decide, by decide⟩
    | cons kv kvs =>
      exact ⟨'\x7b', '\n' :: (ind (d + 1) ++ ('"' :: (escape kv.1 ++ ('"' :: ':' :: ' ' ::
        (Json.dumpAt (d + 1) kv.2 ++
          (Json.dumpFields (d + 1) kvs ++ ('\n' :: (ind d ++ ['\x7d'])))))))),
        by simp [Json.dumpAt], by decide, by decide, by decide⟩

theorem skipWs_dumpAt (d : Nat) (v : Json) (r : List Char) :
    skipWs (Json.dumpAt d v ++ r) = Json.dumpAt d v ++ r := by
  obtain ⟨c, t, he, hw, _, _⟩ := dumpAt_head d v
  rw [he, List.cons_append, skipWs_not_ws _ _ hw]

theorem numSafe_items (d : Nat) (xs : List Json) (l : List Char) :
    numSafe (Json.dumpItems d xs ++ '\n' :: l) := by
  cases xs with
  | nil =>
    intro c t h
    simp only [Json.dumpItems, List.nil_append, List.cons.injEq] at h
    rw [← h.1]
    decide
  | cons x xs =>
    intro c t h
    simp only [Json.dumpItems, List.cons_append, List.cons.injEq] at h
    rw [← h.1]
    decide

theorem numSafe_fields (d : Nat) (kvs : List (String × Json)) (l : List Char) :
    numSafe (Json.dumpFields d kvs ++ '\n' :: l) := by
  cases kvs with
  | nil =>
    intro c t h
    simp only [Json.dumpFields, List.nil_append, List.cons.injEq] at h
    rw [← h.1]
    decide
  | cons kv kvs =>
    intro c t h
    simp only [Json.dumpFields, List.cons_append, List.cons.injEq] at h
    rw [← h.1]
    decide

/-- Structural induction on `Json` with membership hypotheses for the
elements of arrays and objects. -/
def Json.recOn2 {P : Json → Prop}
    (hnull : P .null) (hbool : ∀ b, P (.bool b)) (hnum : ∀ n, P (.num n))
    (hstr : ∀ s, P (.str s))
    (harr : ∀ xs, (∀ x ∈ xs, P x) → P (.arr xs))
    (hobj : ∀ kvs, (∀ kv ∈ kvs, P kv.2) → P (.obj kvs)) : ∀ v, P v
  | .null => hnull
  | .bool b => hbool b
  | .num n => hnum n
  | .str s => hstr s
  | .arr xs =>
    harr xs (fun x hx => Json.recOn2 hnull hbool hnum hstr harr hobj x)
  | .obj kvs =>
    hobj kvs (fun kv hkv => Json.recOn2 hnull hbool hnum hstr harr hobj kv.2)
termination_by v => sizeOf v
decreasing_by
  · have := List.sizeOf_lt_of_mem hx
    simp only [Json.arr.sizeOf_spec]
    omega
  · have h1 := List.sizeOf_lt_of_mem hkv
    have h2 : sizeOf kv.2 < sizeOf kv := by
      obtain ⟨a, b⟩ := kv
      simp
    simp only [Json.obj.sizeOf_spec]
    omega

theorem skipWs_cons_nl (r : List Char) : skipWs ('\n' :: r) = skipWs r :=
  skipWs_ws _ _ rfl

theorem skipWs_cons_space (r : List Char) : skipWs (' ' :: r) = skipWs r :=
  skipWs_ws _ _ rfl

theorem skipWs_cons_comma (r : List Char) : skipWs (',' :: r) = ',' :: r :=
  skipWs_not_ws _ _ rfl

theorem skipWs_cons_rbracket (r : List Char) : skipWs (']' :: r) = ']' :: r :=
  skipWs_not_ws _ _ rfl

theorem skipWs_cons_rbrace (r : List Char) : skipWs ('\x7d' :: r) = '\x7d' :: r :=
  skipWs_not_ws _ _ rfl

theorem skipWs_cons_quote (r : List Char) : skipWs ('"' :: r) = '"' :: r :=
  skipWs_not_ws _ _ rfl

theorem skipWs_cons_colon (r : List Char) : skipWs (':' :: r) = ':' :: r :=
  skipWs_not_ws _ _ rfl

/-- The statement of the print-parse round trip for one value: with enough
fuel, the parser reads the printed form back exactly, for any depth and any
non-digit-headed remainder. -/
def ParsesBack (v : Json) : Prop :=
  ∀ f d rest, Json.size v ≤ f → numSafe rest →
    parseVal f (Json.dumpAt d v ++ rest) = some (v, rest)

theorem arrRest_back (xs : List Json) (IH : ∀ x ∈ xs, ParsesBack x) :
    ∀ f d rest, Json.sizeItems xs ≤ f → numSafe rest →
      parseArrRest f (Json.dumpItems (d + 1) xs ++ ('\n' :: (ind d ++ (']' :: rest)))) =
        some (xs, rest) := by
  induction xs with
  | nil =>
    intro f d rest hf hrest
    cases f with
    | zero => simp [Json.sizeItems] at hf
    | succ f =>
      rw [show Json.dumpItems (d + 1) [] = [] from rfl, List.nil_append, parseArrRest.eq_def]
      simp only [skipWs_cons_nl, skipWs_ind, skipWs_cons_rbracket]
      simp
  | cons x xs ih =>
    intro f d rest hf hrest
    cases f with
    | zero => simp [Json.sizeItems] at hf
    | succ f =>
      have hx := IH x (by simp)
      have hxs : ∀ y ∈ xs, ParsesBack y := fun y hy => IH y (by simp [hy])
      have hsize : Json.sizeItems (x :: xs) = 1 + Json.size x + Json.sizeItems xs := rfl
      rw [show Json.dumpItems (d + 1) (x :: xs) =
        ',' :: '\n' :: (ind (d + 1) ++ (Json.dumpAt (d + 1) x ++ Json.dumpItems (d + 1) xs))
        from rfl]
      simp only [List.cons_append, List.append_assoc]
      rw [parseArrRest.eq_def]
      simp only [skipWs_cons_comma]
      have hinner : parseVal f ('\n' :: (ind (d + 1) ++ (Json.dumpAt (d + 1) x ++
          (Json.dumpItems (d + 1) xs ++ ('\n' :: (ind d ++ (']' :: rest))))))) =
          some (x, Json.dumpItems (d + 1) xs ++ ('\n' :: (ind d ++ (']' :: rest)))) := by
        rw [← parseVal_skipWs]
        rw [skipWs_cons_nl, skipWs_ind, skipWs_dumpAt]
        exact hx f (d + 1) _ (by omega) (numSafe_items (d + 1) xs _)
      have hrest2 : parseArrRest f (Json.dumpItems (d + 1) xs ++
          ('\n' :: (ind d ++ (']' :: rest)))) = some (xs, rest) :=
        ih hxs f d rest (by omega) hrest
      simp [hinner, hrest2]

theorem objRest_back (kvs : List (String × Json)) (IH : ∀ kv ∈ kvs, ParsesBack kv.2) :
    ∀ f d rest, Json.sizeFields kvs ≤ f → numSafe rest →
      parseObjRest f (Json.dumpFields (d + 1) kvs ++ ('\n' :: (ind d ++ ('\x7d' :: rest)))) =
        some (kvs, rest) := by
  induction kvs with
  | nil =>
    intro f d rest hf hrest
    cases f with
    | zero => simp [Json.sizeFields] at hf
    | succ f =>
      rw [show Json.dumpFields (d + 1) [] = [] from rfl, List.nil_append, parseObjRest.eq_def]
      simp only [skipWs_cons_nl, skipWs_ind, skipWs_cons_rbrace]
      simp
  | cons kv kvs ih =>
    intro f d rest hf hrest
    cases f with
    | zero => simp [Json.sizeFields] at hf
    | succ f =>
      have hv := IH kv (by simp)
      have hkvs : ∀ y ∈ kvs, ParsesBack y.2 := fun y hy => IH y (by simp [hy])
      rw [show Json.dumpFields (d + 1) (kv :: kvs) =
        ',' :: '\n' :: (ind (d + 1) ++ ('"' :: (escape kv.1 ++ ('"' :: ':' :: ' ' ::
          (Json.dumpAt (d + 1) kv.2 ++ Json.dumpFields (d + 1) kvs))))) from rfl]
      simp only [List.cons_append, List.append_assoc]
      rw [parseObjRest.eq_def]
      simp only [skipWs_cons_comma]
      have hkeyskip : skipWs ('\n' :: (ind (d + 1) ++ ('"' :: (escape kv.1 ++ ('"' :: ':' :: ' ' ::
          (Json.dumpAt (d + 1) kv.2 ++
            (Json.dumpFields (d + 1) kvs ++ ('\n' :: (ind d ++ ('\x7d' :: rest)))))))))) =
          '"' :: (escape kv.1 ++ ('"' :: ':' :: ' ' :: (Json.dumpAt (d + 1) kv.2 ++
            (Json.dumpFields (d + 1) kvs ++ ('\n' :: (ind d ++ ('\x7d' :: rest))))))) := by
        rw [skipWs_cons_nl, skipWs_ind, skipWs_cons_quote]
      have hkey : parseStringBody (escape kv.1 ++ ('"' :: ':' :: ' ' ::
          (Json.dumpAt (d + 1) kv.2 ++
            (Json.dumpFields (d + 1) kvs ++ ('\n' :: (ind d ++ ('\x7d' :: rest))))))) =
          some (kv.1.data, ':' :: ' ' :: (Json.dumpAt (d + 1) kv.2 ++
            (Json.dumpFields (d + 1) kvs ++ ('\n' :: (ind d ++ ('\x7d' :: rest)))))) :=
        parseStringBody_escape kv.1.data _
      have hval : parseVal f (' ' :: (Json.dumpAt (d + 1) kv.2 ++
          (Json.dumpFields (d + 1) kvs ++ ('\n' :: (ind d ++ ('\x7d' :: rest)))))) =
          some (kv.2, Json.dumpFields (d + 1) kvs ++ ('\n' :: (ind d ++ ('\x7d' :: rest)))) := by
        rw [← parseVal_skipWs]
        rw [skipWs_cons_space, skipWs_dumpAt]
        exact hv f (d + 1) _ (by
          have : Json.sizeFields (kv :: kvs) = 1 + Json.size kv.2 + Json.sizeFields kvs := rfl
          omega) (numSafe_fields (d + 1) kvs _)
      have hrest2 : parseObjRest f (Json.dumpFields (d + 1) kvs ++
          ('\n' :: (ind d ++ ('\x7d' :: rest)))) = some (kvs, rest) :=
        ih hkvs f d rest (by
          have : Json.sizeFields (kv :: kvs) = 1 + Json.size kv.2 + Json.sizeFields kvs := rfl
          omega) hrest
      have hmk : String.mk kv.1.data = kv.1 := rfl
      simp [hkeyskip, hkey, skipWs_cons_colon, hval, hrest2, hmk]

theorem skipWs_cons_minus (r : List Char) : skipWs ('-' :: r) = '-' :: r :=
  skipWs_not_ws _ _ rfl

theorem skipWs_cons_n (r : List Char) : skipWs ('n' :: r) = 'n' :: r :=
  skipWs_not_ws _ _ rfl

theorem skipWs_cons_t (r : List Char) : skipWs ('t' :: r) = 't' :: r :=
  skipWs_not_ws _ _ rfl

theorem skipWs_cons_f (r : List Char) : skipWs ('f' :: r) = 'f' :: r :=
  skipWs_not_ws _ _ rfl

theorem skipWs_cons_lbracket (r : List Char) : skipWs ('[' :: r) = '[' :: r :=
  skipWs_not_ws _ _ rfl

theorem skipWs_cons_lbrace (r : List Char) : skipWs ('\x7b' :: r) = '\x7b' :: r :=
  skipWs_not_ws _ _ rfl

theorem parseVal_dumpAt : ∀ v, ParsesBack v := by
  refine Json.recOn2 ?_ ?_ ?_ ?_ ?_ ?_
  · -- null
    intro f d rest hf hrest
    cases f with
    | zero => simp [Json.size] at hf
    | succ f =>
      rw [show Json.dumpAt d .null = ['n', 'u', 'l', 'l'] from rfl]
      simp only [List.cons_append, List.nil_append]
      rw [parseVal.eq_def]
      simp [skipWs_cons_n]
  · -- bool
    intro b f d rest hf hrest
    cases f with
    | zero => simp [Json.size] at hf
    | succ f =>
      cases b with
      | true =>
        rw [show Json.dumpAt d (.bool true) = ['t', 'r', 'u', 'e'] from rfl]
        simp only [List.cons_append, List.nil_append]
        rw [parseVal.eq_def]
        simp [skipWs_cons_t]
      | false =>
        rw [show Json.dumpAt d (.bool false) = ['f', 'a', 'l', 's', 'e'] from rfl]
        simp only [List.cons_append, List.nil_append]
        rw [parseVal.eq_def]
        simp [skipWs_cons_f]
  · -- num
    intro n f d rest hf hrest
    cases f with
    | zero => simp [Json.size] at hf
    | succ f =>
      by_cases hn : n < 0
      · rw [show Json.dumpAt d (.num n) = intToChars n from rfl,
          show intToChars n = '-' :: natToChars n.natAbs from by simp [intToChars, hn]]
        simp only [List.cons_append]
        rw [parseVal.eq_def]
        have habs : (-(n.natAbs : Int)) = n := by omega
        have habs2 : (-|n| : Int) = n := by rw [abs_of_neg hn, neg_neg]
        simp [skipWs_cons_minus, parseNum_natToChars n.natAbs rest hrest, habs, habs2]
      · obtain ⟨c, t, he, hdg⟩ := natToChars_head_digit n.toNat
        have hw : isWs c = false := isDigit_not_ws c hdg
        have hne1 : ¬(c = '"') := isDigit_char_ne c hdg '"' (by decide)
        have hne2 : ¬(c = '[') := isDigit_char_ne c hdg '[' (by decide)
        have hne3 : ¬(c = '\x7b') := isDigit_char_ne c hdg '\x7b' (by decide)
        have hne4 : ¬(c = 't') := isDigit_char_ne c hdg 't' (by decide)
        have hne5 : ¬(c = 'f') := isDigit_char_ne c hdg 'f' (by decide)
        have hne6 : ¬(c = 'n') := isDigit_char_ne c hdg 'n' (by decide)
        have hne7 : ¬(c = '-') := isDigit_char_ne c hdg '-' (by decide)
        have hto : ((n.toNat : Int)) = n := by omega
        have hcons : c :: (t ++ rest) = natToChars n.toNat ++ rest := by
          rw [he, List.cons_append]
        rw [show Json.dumpAt d (.num n) = intToChars n from rfl,
          show intToChars n = natToChars n.toNat from by simp [intToChars, hn], he]
        simp only [List.cons_append]
        rw [parseVal.eq_def]
        simp only [skipWs_not_ws c (t ++ rest) hw]
        simp only [hne1, hne2, hne3, hne4, hne5, hne6, hne7, hdg, if_false, ite_false,
          if_true, ite_true, eq_self_iff_true]
        rw [hcons, parseNum_natToChars n.toNat rest hrest]
        simp [hto]
  · -- str
    intro s f d rest hf hrest
    cases f with
    | zero => simp [Json.size] at hf
    | succ f =>
      have hmk : String.mk s.data = s := rfl
      rw [show Json.dumpAt d (.str s) = '"' :: (escape s ++ ['"']) from rfl]
      simp only [List.cons_append, List.append_assoc, List.singleton_append]
      rw [parseVal.eq_def]
      simp [skipWs_cons_quote, show escape s = (s.data.map escapeChar).flatten from rfl,
        parseStringBody_escape s.data rest, hmk]
  · -- arr
    intro xs IHxs f d rest hf hrest
    cases xs with
    | nil =>
      cases f with
      | zero => simp [Json.size, Json.sizeItems] at hf
      | succ f =>
        rw [show Json.dumpAt d (.arr []) = ['[', ']'] from rfl]
        simp only [List.cons_append, List.nil_append]
        rw [parseVal.eq_def]
        simp [skipWs_cons_lbracket, skipWs_cons_rbracket]
    | cons x xs =>
      cases f with
      | zero => simp [Json.size, Json.sizeItems] at hf
      | succ f =>
        have hsz : Json.size (Json.arr (x :: xs)) =
            1 + (1 + Json.size x + Json.sizeItems xs) := rfl
        have hx := IHxs x (by simp) f (d + 1)
          (Json.dumpItems (d + 1) xs ++ ('\n' :: (ind d ++ (']' :: rest))))
          (by omega) (numSafe_items (d + 1) xs _)
        obtain ⟨c2, t2, he2, hw2, hnr2, _⟩ := dumpAt_head (d + 1) x
        rw [he2, List.cons_append] at hx
        have harr := arrRest_back xs (fun y hy => IHxs y (by simp [hy])) f d rest
          (by omega) hrest
        have hskip : skipWs ('\n' :: (ind (d + 1) ++ (Json.dumpAt (d + 1) x ++
            (Json.dumpItems (d + 1) xs ++ ('\n' :: (ind d ++ (']' :: rest))))))) =
            c2 :: (t2 ++ (Json.dumpItems (d + 1) xs ++ ('\n' :: (ind d ++ (']' :: rest))))) := by
          rw [skipWs_cons_nl, skipWs_ind, skipWs_dumpAt, he2, List.cons_append]
        rw [show Json.dumpAt d (.arr (x :: xs)) =
          '[' :: '\n' :: (ind (d + 1) ++ (Json.dumpAt (d + 1) x ++
            (Json.dumpItems (d + 1) xs ++ ('\n' :: (ind d ++ [']']))))) from rfl]
        simp only [List.cons_append, List.append_assoc, List.singleton_append]
        rw [parseVal.eq_def]
        simp [skipWs_cons_lbracket, hskip, hnr2, hx, harr]
  · -- obj
    intro kvs IHkvs f d rest hf hrest
    cases kvs with
    | nil =>
      cases f with
      | zero => simp [Json.size, Json.sizeFields] at hf
      | succ f =>
        rw [show Json.dumpAt d (.obj []) = ['\x7b', '\x7d'] from rfl]
        simp only [List.cons_append, List.nil_append]
        rw [parseVal.eq_def]
        simp [skipWs_cons_lbrace, skipWs_cons_rbrace]
    | cons kv kvs =>
      cases f with
      | zero => simp [Json.size, Json.sizeFields] at hf
      | succ f =>
        have hsz : Json.size (Json.obj (kv :: kvs)) =
            1 + (1 + Json.size kv.2 + Json.sizeFields kvs) := rfl
        have hv := IHkvs kv (by simp) f (d + 1)
          (Json.dumpFields (d + 1) kvs ++ ('\n' :: (ind d ++ ('\x7d' :: rest))))
          (by omega) (numSafe_fields (d + 1) kvs _)
        have hobj := objRest_back kvs (fun y hy => IHkvs y (by simp [hy])) f d rest
          (by omega) hrest
        have hmk : String.mk kv.1.data = kv.1 := rfl
        have hskip : skipWs ('\n' :: (ind (d + 1) ++ ('"' :: (escape kv.1 ++
            ('"' :: ':' :: ' ' :: (Json.dumpAt (d + 1) kv.2 ++
              (Json.dumpFields (d + 1) kvs ++ ('\n' :: (ind d ++ ('\x7d' :: rest)))))))))) =
            '"' :: (escape kv.1 ++ ('"' :: ':' :: ' ' :: (Json.dumpAt (d + 1) kv.2 ++
              (Json.dumpFields (d + 1) kvs ++ ('\n' :: (ind d ++ ('\x7d' :: rest))))))) := by
          rw [skipWs_cons_nl, skipWs_ind, skipWs_cons_quote]
        have hkey : parseStringBody ((kv.1.data.map escapeChar).flatten ++
            ('"' :: (':' :: ' ' :: (Json.dumpAt (d + 1) kv.2 ++
              (Json.dumpFields (d + 1) kvs ++ ('\n' :: (ind d ++ ('\x7d' :: rest)))))))) =
            some (kv.1.data, ':' :: ' ' :: (Json.dumpAt (d + 1) kv.2 ++
              (Json.dumpFields (d + 1) kvs ++ ('\n' :: (ind d ++ ('\x7d' :: rest)))))) :=
          parseStringBody_escape kv.1.data _
        have hval : parseVal f (' ' :: (Json.dumpAt (d + 1) kv.2 ++
            (Json.dumpFields (d + 1) kvs ++ ('\n' :: (ind d ++ ('\x7d' :: rest)))))) =
            some (kv.2, Json.dumpFields (d + 1) kvs ++ ('\n' :: (ind d ++ ('\x7d' :: rest)))) := by
          rw [← parseVal_skipWs, skipWs_cons_space, skipWs_dumpAt]
          exact hv
        rw [show Json.dumpAt d (.obj (kv :: kvs)) =
          '\x7b' :: '\n' :: (ind (d + 1) ++ ('"' :: (escape kv.1 ++ ('"' :: ':' :: ' ' ::
            (Json.dumpAt (d + 1) kv.2 ++
              (Json.dumpFields (d + 1) kvs ++ ('\n' :: (ind d ++ ['\x7d']))))))))  from rfl]
        simp only [List.cons_append, List.append_assoc, List.singleton_append]
        rw [parseVal.eq_def]
        simp only [show escape kv.1 = (kv.1.data.map escapeChar).flatten from rfl] at hskip ⊢
        simp [skipWs_cons_lbrace, hskip, hkey, skipWs_cons_colon, hval, hobj, hmk]

theorem sizeItems_le_len (d : Nat) (xs : List Json)
    (IH : ∀ x ∈ xs, ∀ d', Json.size x ≤ (Json.dumpAt d' x).length) :
    Json.sizeItems xs ≤ (Json.dumpItems d xs).length + 1 := by
  induction xs with
  | nil => simp [Json.sizeItems, Json.dumpItems]
  | cons x xs ih =>
    have h1 := IH x (by simp) d
    have h2 := ih (fun y hy d' => IH y (by simp [hy]) d')
    have h3 : Json.sizeItems (x :: xs) = 1 + Json.size x + Json.sizeItems xs := rfl
    have h4 : (Json.dumpItems d (x :: xs)).length =
        2 + (ind d).length + (Json.dumpAt d x).length + (Json.dumpItems d xs).length := by
      simp [Json.dumpItems]
      omega
    omega

theorem sizeFields_le_len (d : Nat) (kvs : List (String × Json))
    (IH : ∀ kv ∈ kvs, ∀ d', Json.size kv.2 ≤ (Json.dumpAt d' kv.2).length) :
    Json.sizeFields kvs ≤ (Json.dumpFields d kvs).length + 1 := by
  induction kvs with
  | nil => simp [Json.sizeFields, Json.dumpFields]
  | cons kv kvs ih =>
    have h1 := IH kv (by simp) d
    have h2 := ih (fun y hy d' => IH y (by simp [hy]) d')
    have h3 : Json.sizeFields (kv :: kvs) = 1 + Json.size kv.2 + Json.sizeFields kvs := rfl
    have h4 : (Json.dumpFields d (kv :: kvs)).length =
        2 + (ind d).length + ((escape kv.1).length + 4) + (Json.dumpAt d kv.2).length +
          (Json.dumpFields d kvs).length := by
      simp [Json.dumpFields]
      omega
    omega

theorem size_le_dump_len : ∀ v : Json, ∀ d, Json.size v ≤ (Json.dumpAt d v).length := by
  refine Json.recOn2 ?_ ?_ ?_ ?_ ?_ ?_
  · intro d; simp [Json.size, Json.dumpAt]
  · intro b d; cases b <;> simp [Json.size, Json.dumpAt]
  · intro n d
    have h : (intToChars n).length ≥ 1 := by
      unfold intToChars
      by_cases hn : n < 0
      · simp [hn]
      · simp only [hn, if_false]
        cases hh : natToChars n.toNat with
        | nil => exact absurd hh (natToChars_ne_nil n.toNat)
        | cons c t => simp [hh]
    have h2 : Json.dumpAt d (.num n) = intToChars n := rfl
    have h3 : Json.size (.num n) = 1 := rfl
    rw [h2, h3]
    omega
  · intro s d
    have h2 : Json.dumpAt d (.str s) = '"' :: (escape s ++ ['"']) := rfl
    have h3 : Json.size (.str s) = 1 := rfl
    simp [h2, h3]
  · intro xs IH d
    cases xs with
    | nil => simp [Json.size, Json.sizeItems, Json.dumpAt]
    | cons x xs =>
      have h1 := IH x (by simp) (d + 1)
      have h2 := sizeItems_le_len (d + 1) xs (fun y hy d' => IH y (by simp [hy]) d')
      have h3 : Json.size (.arr (x :: xs)) = 1 + (1 + Json.size x + Json.sizeItems xs) := rfl
      have h4 : (Json.dumpAt d (.arr (x :: xs))).length =
          2 + (ind (d + 1)).length + (Json.dumpAt (d + 1) x).length +
            (Json.dumpItems (d + 1) xs).length + (1 + (ind d).length + 1) := by
        rw [show Json.dumpAt d (.arr (x :: xs)) =
          '[' :: '\n' :: (ind (d + 1) ++ (Json.dumpAt (d + 1) x ++
            (Json.dumpItems (d + 1) xs ++ ('\n' :: (ind d ++ [']']))))) from rfl]
        simp
        omega
      omega
  · intro kvs IH d
    cases kvs with
    | nil => simp [Json.size, Json.sizeFields, Json.dumpAt]
    | cons kv kvs =>
      have h1 := IH kv (by simp) (d + 1)
      have h2 := sizeFields_le_len (d + 1) kvs (fun y hy d' => IH y (by simp [hy]) d')
      have h3 : Json.size (.obj (kv :: kvs)) = 1 + (1 + Json.size kv.2 + Json.sizeFields kvs) := rfl
      have h4 : (Json.dumpAt d (.obj (kv :: kvs))).length =
          2 + (ind (d + 1)).length + ((escape kv.1).length + 4) +
            (Json.dumpAt (d + 1) kv.2).length + (Json.dumpFields (d + 1) kvs).length +
            (1 + (ind d).length + 1) := by
        rw [show Json.dumpAt d (.obj (kv :: kvs)) =
          '\x7b' :: '\n' :: (ind (d + 1) ++ ('"' :: (escape kv.1 ++ ('"' :: ':' :: ' ' ::
            (Json.dumpAt (d + 1) kv.2 ++
              (Json.dumpFields (d + 1) kvs ++ ('\n' :: (ind d ++ ['\x7d']))))))))  from rfl]
        simp
        omega
      omega

/-- Write-then-read round trip of the JSON encoder and decoder: reading back
what `json.dump` wrote reproduces the value exactly. -/
theorem loads_dumps (v : Json) : loads (dumps v) = some v := by
  have hlist : (dumps v).toList = Json.dumpAt 0 v := rfl
  have hlen : (dumps v).length = (Json.dumpAt 0 v).length := rfl
  have hfuel : Json.size v ≤ (Json.dumpAt 0 v).length + 1 := by
    have := size_le_dump_len v 0
    omega
  have h := parseVal_dumpAt v ((Json.dumpAt 0 v).length + 1) 0 [] hfuel numSafe_nil
  rw [List.append_nil] at h
  unfold loads
  rw [hlist, hlen, h]
  simp [skipWs]

/-- The repr of a decoded JSON value as Python prints it inside f-strings
via `repr` (single-quoted strings, `None`, `True`, `False`). -/
def pyQuote : String := String.mk [Char.ofNat 39]

mutual

/-- Python `repr` of a decoded JSON value. -/
def pyRepr : Json → String
  | .null => "None"
  | .bool true => "True"
  | .bool false => "False"
  | .num n => String.mk (intToChars n)
  | .str s => pyQuote ++ s ++ pyQuote
  | .arr xs => "[" ++ pyReprItems xs ++ "]"
  | .obj kvs => "\x7b" ++ pyReprFields kvs ++ "\x7d"

/-- Comma-separated reprs of list elements. -/
def pyReprItems : List Json → String
  | [] => ""
  | [x] => pyRepr x
  | x :: xs => pyRepr x ++ ", " ++ pyReprItems xs

/-- Comma-separated reprs of dict entries. -/
def pyReprFields : List (String × Json) → String
  | [] => ""
  | [kv] => pyQuote ++ kv.1 ++ pyQuote ++ ": " ++ pyRepr kv.2
  | kv :: kvs => pyQuote ++ kv.1 ++ pyQuote ++ ": " ++ pyRepr kv.2 ++ ", " ++ pyReprFields kvs

end

/-- Python `str()` of a decoded JSON value, as f-string interpolation
renders it: strings verbatim, containers via `repr`. -/
def pyStr : Json → String
  | .str s => s
  | v => pyRepr v

/-- A decoded HTTP response that survived `raise_for_status`: its headers
(case-insensitively addressable) and its raw body. -/
structure Response where
  headers : List (String × String)
  body : String

/-- Embedding of `response.json()`: decode the body as JSON. -/
def Response.json (r : Response) : Option Json := loads r.body

/-- ASCII lower-casing of one character. -/
def lowerChar (c : Char) : Char :=
  if 'A' ≤ c && c ≤ 'Z' then Char.ofNat (c.toNat + 32) else c

/-- ASCII lower-casing of a string, the model of `str.lower()`. -/
def lowerStr (s : String) : String := String.mk (s.data.map lowerChar)

/-- Case-insensitive header lookup, as requests' `CaseInsensitiveDict.get`. -/
def headersGet (hs : List (String × String)) (k : String) : Option String :=
  (hs.find? (fun kv => lowerStr kv.1 == lowerStr k)).map (fun kv => kv.2)

/-- Outcome of the one remote call an operation performs: either a 2xx
response, or a `requests.exceptions.RequestException` (timeout, connection
failure, or the non-2xx status raised by `raise_for_status`) carrying its
rendered message. -/
inductive TransportResult where
  | success (resp : Response)
  | failure (msg : String)

/-- The scraper instance's mutable configuration fields (`ECourtsScraper`,
ecourts_scraper.py lines 31-32).  The values are arbitrary JSON because the
REST facade assigns raw request-body values to them. -/
structure ECourtsScraper where
  state_code : Json
  district_code : Json

/-- The configuration `ECourtsScraper()` starts with. -/
def defaultScraper : ECourtsScraper := ⟨Json.str "DL", Json.str "1"⟩

/-- One issued HTTP request, as logged for the frame-condition claims. -/
structure HttpRequest where
  url : String
  method : String
  data : Option (List (String × Json))
  params : Option (List (String × Json))

/-- The process state a scraper operation can read or write: the shared
scraper instance, the file system, created directories, both console
streams, and the log of issued remote calls. -/
structure World where
  scraper : ECourtsScraper
  files : List (String × String)
  dirs : List String
  stdoutLines : List String
  stderrLines : List String
  requests : List HttpRequest

/-- Append one line to stdout. -/
def pushOut (w : World) (l : String) : World :=
  { w with stdoutLines := w.stdoutLines ++ [l] }

/-- Append one diagnostic line to stderr. -/
def pushErr (w : World) (l : String) : World :=
  { w with stderrLines := w.stderrLines ++ [l] }

/-- Write (or overwrite) one file. -/
def writeFile (w : World) (path content : String) : World :=
  { w with files := (path, content) :: w.files }

/-- Read one file, if present. -/
def readFile (w : World) (path : String) : Option String :=
  (w.files.find? (fun kv => kv.1 == path)).map (fun kv => kv.2)

/-- Embedding of `Path(dir).mkdir(exist_ok=True)`. -/
def mkdirExistOk (w : World) (dir : String) : World :=
  if dir ∈ w.dirs then w else { w with dirs := dir :: w.dirs }

/-- The fixed portal base URL (`ECourtsScraper.BASE_URL`). -/
def BASE_URL : String := "https://services.ecourts.gov.in/ecourtindia_v6"

/-- Embedding of `ECourtsScraper._make_request` (ecourts_scraper.py lines
41-55): log the attempted call, then either hand back the successful
response, or swallow the transport exception into a `None` result after
printing one diagnostic to stderr.  The return type is an `Option`, not an
`Except`: no exception leaves this function. -/
def _make_request (endpoint method : String) (data params : Option (List (String × Json)))
    (t : TransportResult) (w : World) : Option Response × World :=
  let w1 := { w with requests :=
    w.requests ++ [⟨BASE_URL ++ "/" ++ endpoint, method, data, params⟩] }
  match t with
  | .success response => (some response, w1)
  | .failure e => (none, pushErr w1 ("❌ Request error: " ++ e))

/-- A `datetime` value, reduced to the formatted strings the code extracts
from it (`%d-%m-%Y`, `%Y%m%d`, `%Y-%m-%d`, `isoformat`). -/
structure PyDate where
  dmy : String
  ymd : String
  ymdDash : String
  iso : String

/-- Embedding of `ECourtsScraper.get_case_by_cnr` (lines 57-84). -/
def get_case_by_cnr (cnr : Json) (t : TransportResult) (w : World) : Option Json × World :=
  let w := pushOut w ("🔍 Searching for CNR: " ++ pyStr cnr)
  let data := [("state_code", w.scraper.state_code), ("dist_code", w.scraper.district_code),
    ("cnr_number", cnr)]
  match _make_request "case_status/cnr_search.php" "POST" (some data) none t w with
  | (some response, w1) =>
    match response.json with
    | some j => (some j, w1)
    | none => (none, pushErr w1 "❌ Failed to parse response")
  | (none, w1) => (none, w1)

/-- Embedding of `ECourtsScraper.get_case_by_details` (lines 86-116). -/
def get_case_by_details (case_type case_number case_year : Json) (t : TransportResult)
    (w : World) : Option Json × World :=
  let w := pushOut w ("🔍 Searching for case: " ++ pyStr case_type ++ "/" ++
    pyStr case_number ++ "/" ++ pyStr case_year)
  let data := [("state_code", w.scraper.state_code), ("dist_code", w.scraper.district_code),
    ("case_type", case_type), ("case_no", case_number), ("case_year", case_year)]
  match _make_request "case_status/case_number_search.php" "POST" (some data) none t w with
  | (some response, w1) =>
    match response.json with
    | some j => (some j, w1)
    | none => (none, pushErr w1 "❌ Failed to parse response")
  | (none, w1) => (none, w1)

/-- Embedding of `ECourtsScraper.check_listing` (lines 118-155).  The
`case_details.get` and the first `listing.get` call can raise
`AttributeError` on non-dict values (nothing catches it, hence the `Except`);
once the first `listing.get` has succeeded the decoded response is known to
be a dict, so the remaining four `.get` calls are the pure lookup.  A JSON
decode error is silently swallowed (`except ...: pass`). -/
def check_listing (case_details : Json) (date : PyDate) (t : TransportResult) (w : World) :
    Except String (Option Json) × World :=
  let date_str := date.dmy
  let w := pushOut w ("📅 Checking listing for " ++ date_str)
  match pyGetD case_details "case_id" (Json.str "") with
  | .error e => (.error e, w)
  | .ok case_id =>
    let data := [("state_code", w.scraper.state_code), ("dist_code", w.scraper.district_code),
      ("date", Json.str date_str), ("case_id", case_id)]
    match _make_request "cause_list/listing_by_date.php" "POST" (some data) none t w with
    | (none, w1) => (.ok none, w1)
    | (some response, w1) =>
      match response.json with
      | none => (.ok none, w1)
      | some listing =>
        match pyGetD listing "is_listed" Json.null with
        | .error e => (.error e, w1)
        | .ok flag =>
          if flag.truthy then
            (.ok (some (Json.obj [("date", Json.str date_str),
              ("serial_number", Json.getD listing "serial_no" Json.null),
              ("court_name", Json.getD listing "court_name" Json.null),
              ("court_hall", Json.getD listing "court_hall" Json.null),
              ("hearing_time", Json.getD listing "hearing_time" Json.null)])), w1)
          else (.ok none, w1)

/-- Embedding of `ECourtsScraper.download_case_pdf` (lines 157-187).  The
directory is created before the `.get` calls and the remote request; the
body is accepted only when the declared content type is exactly
`application/pdf`. -/
def download_case_pdf (case_details : Json) (output_dir : String) (t : TransportResult)
    (w : World) : Except String (Option String) × World :=
  let w := pushOut w "📄 Attempting to download case PDF..."
  let w := mkdirExistOk w output_dir
  match pyGetD case_details "case_id" (Json.str "") with
  | .error e => (.error e, w)
  | .ok case_id =>
    let params := [("case_id", case_id), ("state_code", w.scraper.state_code)]
    match _make_request "case_status/download_case_pdf.php" "GET" none (some params) t w with
    | (some response, w1) =>
      if headersGet response.headers "content-type" = some "application/pdf" then
        let filename := output_dir ++ "/case_" ++
          pyStr (Json.getD case_details "cnr" (Json.str "unknown")) ++ ".pdf"
        let w2 := pushOut (writeFile w1 filename response.body) ("✅ PDF saved: " ++ filename)
        (.ok (some filename), w2)
      else (.ok none, pushErr w1 "❌ PDF not available")
    | (none, w1) => (.ok none, pushErr w1 "❌ PDF not available")

/-- Embedding of `ECourtsScraper.download_cause_list` (lines 189-226). -/
def download_cause_list (date : PyDate) (output_dir : String) (t : TransportResult)
    (w : World) : Option String × World :=
  let date_str := date.dmy
  let w := pushOut w ("📋 Downloading cause list for " ++ date_str ++ "...")
  let w := mkdirExistOk w output_dir
  let data := [("state_code", w.scraper.state_code), ("dist_code", w.scraper.district_code),
    ("date", Json.str date_str)]
  match _make_request "cause_list/daily_cause_list.php" "POST" (some data) none t w with
  | (some response, w1) =>
    match response.json with
    | some cause_list =>
      let filename := output_dir ++ "/cause_list_" ++ date.ymd ++ ".json"
      let w2 := pushOut (writeFile w1 filename (dumps cause_list))
        ("✅ Cause list saved: " ++ filename)
      (some filename, w2)
    | none => (none, pushErr w1 "❌ Failed to parse cause list")
  | (none, w1) => (none, w1)

/-- Embedding of `ECourtsScraper.save_results` (lines 228-237). -/
def save_results (data : Json) (filename output_dir : String) (w : World) : String × World :=
  let w := mkdirExistOk w output_dir
  let filepath := output_dir ++ "/" ++ filename
  let w := pushOut (writeFile w filepath (dumps data)) ("💾 Results saved: " ++ filepath)
  (filepath, w)

/-- The day list the CLI builds for listing checks (ecourts_scraper.py
lines 352-356): today first when `--today` is given, then tomorrow when
`--tomorrow` is given; each day carries its own transport outcome. -/
def cliListingDays (check_today check_tomorrow : Bool) (dToday dTomorrow : PyDate)
    (tToday tTomorrow : TransportResult) : List (String × PyDate × TransportResult) :=
  (if check_today then [("today", dToday, tToday)] else []) ++
    (if check_tomorrow then [("tomorrow", dTomorrow, tTomorrow)] else [])

/-- Embedding of the CLI listing loop (lines 358-362): check each day in
order and break at the first positive listing. -/
def cliCheckListings (case_details : Json) :
    List (String × PyDate × TransportResult) → World → Except String (Option Json) × World
  | [], w => (.ok none, w)
  | (_, date, t) :: rest, w =>
    match check_listing case_details date t w with
    | (.ok (some info), w1) => (.ok (some info), w1)
    | (.ok none, w1) => cliCheckListings case_details rest w1
    | (.error e, w1) => (.error e, w1)

/-- An error response body, `jsonify({'error': msg})`. -/
def errObj (msg : String) : Json := Json.obj [("error", Json.str msg)]

/-- The facade's generic `except Exception` handler: HTTP 500 with the
exception message embedded verbatim. -/
def err500 (e : String) : Nat × Json := (500, errObj ("Internal server error: " ++ e))

/-- The repeated `if 'district_code' in data: scraper.district_code =
data['district_code']` block of the facade handlers. -/
def updateDistrictConfig (data : Json) (w : World) : Except String Unit × World :=
  match pyIn "district_code" data with
  | .error e => (.error e, w)
  | .ok true =>
    match pyIndex data "district_code" with
    | .error e => (.error e, w)
    | .ok v => (.ok (), { w with scraper := { w.scraper with district_code := v } })
  | .ok false => (.ok (), w)

/-- The repeated config-update block of the facade handlers (web_api.py
lines 66-70, 117-121, 169-173): assign `state_code` then `district_code`
from the request body when present, mutating the shared scraper. -/
def updateScraperConfig (data : Json) (w : World) : Except String Unit × World :=
  match pyIn "state_code" data with
  | .error e => (.error e, w)
  | .ok true =>
    match pyIndex data "state_code" with
    | .error e => (.error e, w)
    | .ok v => updateDistrictConfig data { w with scraper := { w.scraper with state_code := v } }
  | .ok false => updateDistrictConfig data w

/-- Embedding of the `/api/search/cnr` handler `search_by_cnr` (web_api.py
lines 46-89).  `body` is `request.get_json()`; `none` stands for a missing
or non-JSON body. -/
def api_search_cnr (body : Option Json) (now : PyDate) (t : TransportResult) (w : World) :
    (Nat × Json) × World :=
  match body with
  | none => ((400, errObj "CNR number is required"), w)
  | some data =>
    if data.truthy = false then ((400, errObj "CNR number is required"), w)
    else
      match pyIn "cnr" data with
      | .error e => (err500 e, w)
      | .ok false => ((400, errObj "CNR number is required"), w)
      | .ok true =>
        match updateScraperConfig data w with
        | (.error e, w1) => (err500 e, w1)
        | (.ok _, w1) =>
          match pyIndex data "cnr" with
          | .error e => (err500 e, w1)
          | .ok cnr =>
            match get_case_by_cnr cnr t w1 with
            | (none, w2) => ((404, errObj "Case not found or error fetching details"), w2)
            | (some cd, w2) =>
              if cd.truthy = false then
                ((404, errObj "Case not found or error fetching details"), w2)
              else
                ((200, Json.obj [("success", Json.bool true), ("data", cd),
                  ("timestamp", Json.str now.iso)]), w2)

/-- The dict `{'day': day, **listing}` built for one positive listing
(web_api.py lines 205-208, 213-217); the listing the scraper returns is
always a dict, so the non-dict arm is unreachable. -/
def listingEntry (day : String) (listing : Json) : Json :=
  match listing with
  | .obj kvs => Json.obj (("day", Json.str day) :: kvs)
  | v => v

/-- One optional day check of the `/api/listing/check` handler: when the
flag is truthy, run the scraper's listing check and wrap a positive result
as a listing entry. -/
def checkOneDay (flag : Json) (day : String) (cd : Json) (date : PyDate)
    (t : TransportResult) (w : World) : Except String (Option Json) × World :=
  if flag.truthy then
    match check_listing cd date t w with
    | (.error e, w1) => (.error e, w1)
    | (.ok none, w1) => (.ok none, w1)
    | (.ok (some listing), w1) => (.ok (some (listingEntry day listing)), w1)
  else (.ok none, w)

/-- Short-circuiting `all(k in data for k in [...])` over string keys. -/
def pyAllIn (ks : List String) (data : Json) : Except String Bool :=
  match ks with
  | [] => .ok true
  | k :: rest =>
    match pyIn k data with
    | .error e => .error e
    | .ok false => .ok false
    | .ok true => pyAllIn rest data

/-- Tail of the `/api/listing/check` handler after the case lookup
(web_api.py lines 190-224): 404 on a falsy case, then the two optional day
checks, then the 200 response whose `is_listed` is the non-emptiness of the
accumulated listings. -/
def api_check_listing_finish (lookup : Option Json × World) (data : Json)
    (now tomorrow_ : PyDate) (tToday tTomorrow : TransportResult) : (Nat × Json) × World :=
  match lookup with
  | (none, w) => ((404, errObj "Case not found"), w)
  | (some cd, w) =>
    if cd.truthy = false then ((404, errObj "Case not found"), w)
    else
      match pyGetD data "check_today" (Json.bool false) with
      | (.error e) => (err500 e, w)
      | (.ok flagT) =>
        match checkOneDay flagT "today" cd now tToday w with
        | (.error e, w1) => (err500 e, w1)
        | (.ok entryT, w1) =>
          match pyGetD data "check_tomorrow" (Json.bool false) with
          | (.error e) => (err500 e, w1)
          | (.ok flagTm) =>
            match checkOneDay flagTm "tomorrow" cd tomorrow_ tTomorrow w1 with
            | (.error e, w2) => (err500 e, w2)
            | (.ok entryTm, w2) =>
              let listings := (match entryT with | some x => [x] | none => []) ++
                (match entryTm with | some x => [x] | none => [])
              ((200, Json.obj [("success", Json.bool true),
                ("data", Json.obj [("case_details", cd), ("listings", Json.arr listings)]),
                ("is_listed", Json.bool (decide (0 < listings.length))),
                ("timestamp", Json.str now.iso)]), w2)

/-- Embedding of the `/api/listing/check` handler (web_api.py lines
147-229): body validation, config update, case lookup by CNR or by the
type/number/year triple, then `api_check_listing_finish`. -/
def api_check_listing (body : Option Json) (now tomorrow_ : PyDate)
    (tCase tToday tTomorrow : TransportResult) (w : World) : (Nat × Json) × World :=
  match body with
  | none => ((400, errObj "Request body is required"), w)
  | some data =>
    if data.truthy = false then ((400, errObj "Request body is required"), w)
    else
      match updateScraperConfig data w with
      | (.error e, w1) => (err500 e, w1)
      | (.ok _, w1) =>
        match pyIn "cnr" data with
        | .error e => (err500 e, w1)
        | .ok true =>
          match pyIndex data "cnr" with
          | .error e => (err500 e, w1)
          | .ok cnr =>
            api_check_listing_finish (get_case_by_cnr cnr tCase w1) data now tomorrow_
              tToday tTomorrow
        | .ok false =>
          match pyAllIn ["case_type", "case_number", "case_year"] data with
          | .error e => (err500 e, w1)
          | .ok false =>
            ((400, errObj "Provide either CNR or case details (type, number, year)"), w1)
          | .ok true =>
            match pyIndex data "case_type" with
            | .error e => (err500 e, w1)
            | .ok ct =>
              match pyIndex data "case_number" with
              | .error e => (err500 e, w1)
              | .ok cn =>
                match pyIndex data "case_year" with
                | .error e => (err500 e, w1)
                | .ok cy =>
                  api_check_listing_finish (get_case_by_details ct cn cy tCase w1) data now
                    tomorrow_ tToday tTomorrow

/-- Query-parameter lookup, `request.args.get`. -/
def argsGet (args : List (String × String)) (k : String) : Option String :=
  (args.find? (fun kv => kv.1 == k)).map (fun kv => kv.2)

/-- The `/api/causelist` handler's config update from query parameters
(web_api.py lines 255-258): guarded by string truthiness. -/
def updateConfigFromArgs (args : List (String × String)) (w : World) : World :=
  let w1 :=
    match argsGet args "state_code" with
    | some v =>
      if v = "" then w else { w with scraper := { w.scraper with state_code := Json.str v } }
    | none => w
  match argsGet args "district_code" with
  | some v =>
    if v = "" then w1 else { w1 with scraper := { w1.scraper with district_code := Json.str v } }
  | none => w1

/-- Tail of the `/api/causelist` handler once a date is chosen (web_api.py
lines 254-278): config update, download to a file under `downloads`, then
re-read and decode that file for the 200 response. -/
def api_get_cause_list_fetch (args : List (String × String)) (date now : PyDate)
    (t : TransportResult) (w : World) : (Nat × Json) × World :=
  let w1 := updateConfigFromArgs args w
  match download_cause_list date "downloads" t w1 with
  | (none, w2) => ((500, errObj "Failed to download cause list"), w2)
  | (some filename, w2) =>
    match readFile w2 filename with
    | none => (err500 "file not found", w2)
    | some content =>
      match loads content with
      | none => (err500 "invalid JSON in cause list file", w2)
      | some cause_list =>
        ((200, Json.obj [("success", Json.bool true), ("data", cause_list),
          ("date", Json.str date.ymdDash), ("timestamp", Json.str now.iso)]), w2)

/-- Embedding of the `/api/causelist` handler `get_cause_list` (web_api.py
lines 232-283): the `date` query parameter, lower-cased and defaulting to
`today`, must be `today` or `tomorrow`; anything else is an immediate 400
before any state change or remote call. -/
def api_get_cause_list (args : List (String × String)) (now tomorrow_ : PyDate)
    (t : TransportResult) (w : World) : (Nat × Json) × World :=
  let date_param := lowerStr ((argsGet args "date").getD "today")
  if date_param = "today" then api_get_cause_list_fetch args now now t w
  else if date_param = "tomorrow" then api_get_cause_list_fetch args tomorrow_ now t w
  else ((400, errObj "Invalid date parameter. Use \"today\" or \"tomorrow\""), w)

@[simp] theorem pushOut_scraper (w : World) (l : String) : (pushOut w l).scraper = w.scraper := rfl

@[simp] theorem pushOut_stderr (w : World) (l : String) :
    (pushOut w l).stderrLines = w.stderrLines := rfl

@[simp] theorem pushOut_files (w : World) (l : String) : (pushOut w l).files = w.files := rfl

@[simp] theorem pushOut_dirs (w : World) (l : String) : (pushOut w l).dirs = w.dirs := rfl

@[simp] theorem pushOut_requests (w : World) (l : String) :
    (pushOut w l).requests = w.requests := rfl

@[simp] theorem pushErr_scraper (w : World) (l : String) : (pushErr w l).scraper = w.scraper := rfl

@[simp] theorem pushErr_stderr (w : World) (l : String) :
    (pushErr w l).stderrLines = w.stderrLines ++ [l] := rfl

@[simp] theorem pushErr_files (w : World) (l : String) : (pushErr w l).files = w.files := rfl

@[simp] theorem pushErr_dirs (w : World) (l : String) : (pushErr w l).dirs = w.dirs := rfl

@[simp] theorem pushErr_requests (w : World) (l : String) :
    (pushErr w l).requests = w.requests := rfl

@[simp] theorem writeFile_scraper (w : World) (p c : String) :
    (writeFile w p c).scraper = w.scraper := rfl

@[simp] theorem writeFile_stderr (w : World) (p c : String) :
    (writeFile w p c).stderrLines = w.stderrLines := rfl

@[simp] theorem writeFile_files (w : World) (p c : String) :
    (writeFile w p c).files = (p, c) :: w.files := rfl

@[simp] theorem writeFile_dirs (w : World) (p c : String) : (writeFile w p c).dirs = w.dirs := rfl

@[simp] theorem mkdirExistOk_scraper (w : World) (dir : String) :
    (mkdirExistOk w dir).scraper = w.scraper := by
  unfold mkdirExistOk
  split <;> rfl

@[simp] theorem mkdirExistOk_stderr (w : World) (dir : String) :
    (mkdirExistOk w dir).stderrLines = w.stderrLines := by
  unfold mkdirExistOk
  split <;> rfl

@[simp] theorem mkdirExistOk_files (w : World) (dir : String) :
    (mkdirExistOk w dir).files = w.files := by
  unfold mkdirExistOk
  split <;> rfl

@[simp] theorem mkdirExistOk_stdout (w : World) (dir : String) :
    (mkdirExistOk w dir).stdoutLines = w.stdoutLines := by
  unfold mkdirExistOk
  split <;> rfl

@[simp] theorem mkdirExistOk_requests (w : World) (dir : String) :
    (mkdirExistOk w dir).requests = w.requests := by
  unfold mkdirExistOk
  split <;> rfl

theorem mkdirExistOk_dirs_mem (w : World) (dir : String) : dir ∈ (mkdirExistOk w dir).dirs := by
  unfold mkdirExistOk
  split
  · assumption
  · exact List.mem_cons_self _ _

theorem mkdirExistOk_dirs_mono (w : World) (dir d : String) (h : d ∈ w.dirs) :
    d ∈ (mkdirExistOk w dir).dirs := by
  unfold mkdirExistOk
  split
  · exact h
  · exact List.mem_cons_of_mem _ h

@[simp] theorem make_request_scraper (endpoint method : String)
    (data params : Option (List (String × Json))) (t : TransportResult) (w : World) :
    (_make_request endpoint method data params t w).2.scraper = w.scraper := by
  cases t <;> rfl

@[simp] theorem make_request_dirs (endpoint method : String)
    (data params : Option (List (String × Json))) (t : TransportResult) (w : World) :
    (_make_request endpoint method data params t w).2.dirs = w.dirs := by
  cases t <;> rfl

@[simp] theorem make_request_files (endpoint method : String)
    (data params : Option (List (String × Json))) (t : TransportResult) (w : World) :
    (_make_request endpoint method data params t w).2.files = w.files := by
  cases t <;> rfl

/-- An empty concrete process state for concrete evaluations. -/
def w0 : World := ⟨defaultScraper, [], [], [], [], []⟩

/-- A concrete date value for concrete evaluations. -/
def d0 : PyDate := ⟨"05-10-2026", "20261005", "2026-10-05", "2026-10-05T09:00:00"⟩

/-- C1: for every transport-level exception (timeout, connection failure,
non-2xx status), `_make_request` writes one diagnostic line to stderr and
returns null; its return type is a plain `Option`, so no exception
propagates past the client's boundary. -/
theorem C1_make_request_swallows_transport_errors (endpoint method : String)
    (data params : Option (List (String × Json))) (e : String) (w : World) :
    (_make_request endpoint method data params (.failure e) w).1 = none ∧
    (_make_request endpoint method data params (.failure e) w).2.stderrLines =
      w.stderrLines ++ ["❌ Request error: " ++ e] := by
  constructor <;> rfl

/-- C2 counterexample: on a successful response whose body is not valid
JSON, `check_listing` returns null but emits no stderr diagnostic at all
(the decode error is swallowed by `except ...: pass`), refuting the claim
that each of the four operations emits exactly one diagnostic. -/
theorem C2_check_listing_counterexample :
    loads "not json" = none ∧
    (check_listing (Json.obj []) d0 (.success ⟨[], "not json"⟩) w0).1 = .ok none ∧
    (check_listing (Json.obj []) d0 (.success ⟨[], "not json"⟩) w0).2.stderrLines = [] :=
  ⟨rfl, rfl, rfl⟩

/-- C2 amended: on a response body that is not valid JSON, all four
operations return null; `get_case_by_cnr`, `get_case_by_details` and
`download_cause_list` emit exactly one stderr diagnostic, while
`check_listing` emits none (its decode failure is silently swallowed). -/
theorem C2_amended_non_json_diagnostics (body : String) (hs : List (String × String))
    (hbody : loads body = none) (cnr ct cn cy : Json) (ckvs : List (String × Json))
    (date : PyDate) (odir : String) (w : World) :
    ((get_case_by_cnr cnr (.success ⟨hs, body⟩) w).1 = none ∧
      (get_case_by_cnr cnr (.success ⟨hs, body⟩) w).2.stderrLines =
        w.stderrLines ++ ["❌ Failed to parse response"]) ∧
    ((get_case_by_details ct cn cy (.success ⟨hs, body⟩) w).1 = none ∧
      (get_case_by_details ct cn cy (.success ⟨hs, body⟩) w).2.stderrLines =
        w.stderrLines ++ ["❌ Failed to parse response"]) ∧
    ((check_listing (Json.obj ckvs) date (.success ⟨hs, body⟩) w).1 = .ok none ∧
      (check_listing (Json.obj ckvs) date (.success ⟨hs, body⟩) w).2.stderrLines =
        w.stderrLines) ∧
    ((download_cause_list date odir (.success ⟨hs, body⟩) w).1 = none ∧
      (download_cause_list date odir (.success ⟨hs, body⟩) w).2.stderrLines =
        w.stderrLines ++ ["❌ Failed to parse cause list"]) := by
  refine ⟨⟨?_, ?_⟩, ⟨?_, ?_⟩, ⟨?_, ?_⟩, ⟨?_, ?_⟩⟩ <;>
    simp [get_case_by_cnr, get_case_by_details, check_listing, download_cause_list,
      _make_request, Response.json, pyGetD, hbody]

/-- C2 witness: the amended statement evaluated at a concrete non-JSON body;
the lookup operation returns null with exactly the one parse diagnostic. -/
theorem C2_amended_witness :
    (get_case_by_cnr (Json.str "X") (.success ⟨[], "not json"⟩) w0).1 = none ∧
    (get_case_by_cnr (Json.str "X") (.success ⟨[], "not json"⟩) w0).2.stderrLines =
      w0.stderrLines ++ ["❌ Failed to parse response"] :=
  (C2_amended_non_json_diagnostics "not json" [] rfl (Json.str "X") Json.null Json.null
    Json.null [] d0 "downloads" w0).1

/-- C3 counterexample: on a decoded response that is valid JSON but not an
object (here the empty array), the listing flag is absent, yet
`check_listing` does not return null: the `listing.get` call raises an
uncaught `AttributeError`, refuting the claim that an absent flag always
yields a null result. -/
theorem C3_nonobject_counterexample :
    loads "[]" = some (Json.arr []) ∧
    (check_listing (Json.obj []) d0 (.success ⟨[], "[]"⟩) w0).1 =
      .error "AttributeError: list object has no attribute get" :=
  ⟨rfl, rfl⟩

/-- C3 amended: when the decoded response is a JSON object, `check_listing`
returns a listing record exactly when the object's `is_listed` value is
truthy, and that record always carries all five fields (date,
serial_number, court_name, court_hall, hearing_time); a false or absent
flag yields null.  On a non-object decoded response the uncaught
`AttributeError` propagates instead. -/
theorem C3_listing_iff_flag (ckvs lkvs : List (String × Json)) (hs : List (String × String))
    (body : String) (date : PyDate) (w : World)
    (hbody : loads body = some (Json.obj lkvs)) :
    (check_listing (Json.obj ckvs) date (.success ⟨hs, body⟩) w).1 =
      .ok (if (Json.getD (Json.obj lkvs) "is_listed" Json.null).truthy then
        some (Json.obj [("date", Json.str date.dmy),
          ("serial_number", Json.getD (Json.obj lkvs) "serial_no" Json.null),
          ("court_name", Json.getD (Json.obj lkvs) "court_name" Json.null),
          ("court_hall", Json.getD (Json.obj lkvs) "court_hall" Json.null),
          ("hearing_time", Json.getD (Json.obj lkvs) "hearing_time" Json.null)])
      else none) := by
  simp only [check_listing, _make_request, Response.json, hbody, pyGetD]
  split <;> rename_i h <;> simp [h, Json.getD]

/-- C3 witness: the amended statement at a concrete listed response. -/
theorem C3_listing_iff_flag_witness :
    (check_listing (Json.obj []) d0
      (.success ⟨[], "\x7b\"is_listed\": true\x7d"⟩) w0).1 =
      .ok (if (Json.getD (Json.obj [("is_listed", Json.bool true)]) "is_listed"
            Json.null).truthy then
        some (Json.obj [("date", Json.str d0.dmy),
          ("serial_number", Json.getD (Json.obj [("is_listed", Json.bool true)]) "serial_no"
            Json.null),
          ("court_name", Json.getD (Json.obj [("is_listed", Json.bool true)]) "court_name"
            Json.null),
          ("court_hall", Json.getD (Json.obj [("is_listed", Json.bool true)]) "court_hall"
            Json.null),
          ("hearing_time", Json.getD (Json.obj [("is_listed", Json.bool true)]) "hearing_time"
            Json.null)])
      else none) :=
  C3_listing_iff_flag [] [("is_listed", Json.bool true)] [] "\x7b\"is_listed\": true\x7d" d0 w0 rfl

/-- C4: `download_case_pdf` writes the response bytes to the file named by
the case registry number and returns its path exactly when the declared
content type is exactly `application/pdf`; on any other content type, and
on a failed request, it returns null, emits a diagnostic, and writes no
file. -/
theorem C4_pdf_content_type_gate (ckvs : List (String × Json)) (output_dir : String)
    (t : TransportResult) (w : World) :
    (∀ resp, t = .success resp →
      headersGet resp.headers "content-type" = some "application/pdf" →
      (download_case_pdf (Json.obj ckvs) output_dir t w).1 =
        .ok (some (output_dir ++ "/case_" ++
          pyStr (Json.getD (Json.obj ckvs) "cnr" (Json.str "unknown")) ++ ".pdf")) ∧
      (download_case_pdf (Json.obj ckvs) output_dir t w).2.files =
        (output_dir ++ "/case_" ++
          pyStr (Json.getD (Json.obj ckvs) "cnr" (Json.str "unknown")) ++ ".pdf",
          resp.body) :: w.files) ∧
    (∀ resp, t = .success resp →
      ¬ headersGet resp.headers "content-type" = some "application/pdf" →
      (download_case_pdf (Json.obj ckvs) output_dir t w).1 = .ok none ∧
      (download_case_pdf (Json.obj ckvs) output_dir t w).2.files = w.files ∧
      (download_case_pdf (Json.obj ckvs) output_dir t w).2.stderrLines =
        w.stderrLines ++ ["❌ PDF not available"]) ∧
    (∀ e, t = .failure e →
      (download_case_pdf (Json.obj ckvs) output_dir t w).1 = .ok none ∧
      (download_case_pdf (Json.obj ckvs) output_dir t w).2.files = w.files ∧
      (download_case_pdf (Json.obj ckvs) output_dir t w).2.stderrLines =
        w.stderrLines ++ ["❌ Request error: " ++ e, "❌ PDF not available"]) := by
  refine ⟨?_, ?_, ?_⟩
  · rintro resp rfl hct
    simp [download_case_pdf, _make_request, pyGetD, hct]
  · rintro resp rfl hct
    simp [download_case_pdf, _make_request, pyGetD, hct]
  · rintro e rfl
    simp [download_case_pdf, _make_request, pyGetD]

/-- C4 witness: a concrete successful download with the exact content type,
addressed case-insensitively as the HTTP client does. -/
theorem C4_pdf_content_type_gate_witness :
    (download_case_pdf (Json.obj [("cnr", Json.str "DL42")]) "downloads"
      (.success ⟨[("Content-Type", "application/pdf")], "PDFBYTES"⟩) w0).1 =
      .ok (some ("downloads" ++ "/case_" ++
        pyStr (Json.getD (Json.obj [("cnr", Json.str "DL42")]) "cnr" (Json.str "unknown")) ++
        ".pdf")) ∧
    (download_case_pdf (Json.obj [("cnr", Json.str "DL42")]) "downloads"
      (.success ⟨[("Content-Type", "application/pdf")], "PDFBYTES"⟩) w0).2.files =
      ("downloads" ++ "/case_" ++
        pyStr (Json.getD (Json.obj [("cnr", Json.str "DL42")]) "cnr" (Json.str "unknown")) ++
        ".pdf", "PDFBYTES") :: w0.files :=
  (C4_pdf_content_type_gate [("cnr", Json.str "DL42")] "downloads"
    (.success ⟨[("Content-Type", "application/pdf")], "PDFBYTES"⟩) w0).1
    ⟨[("Content-Type", "application/pdf")], "PDFBYTES"⟩ rfl (by rfl)

/-- C5: the write-then-read round trip of `save_results`: reading the file
it wrote back from the file system and decoding it as JSON reproduces
exactly the dictionary that was passed to the save operation. -/
theorem C5_save_results_roundtrip (data : Json) (filename output_dir : String) (w : World) :
    (readFile (save_results data filename output_dir w).2
      (save_results data filename output_dir w).1).bind loads = some data := by
  have hread : readFile (save_results data filename output_dir w).2
      (save_results data filename output_dir w).1 = some (dumps data) := by
    simp [save_results, readFile, writeFile, pushOut, mkdirExistOk]
  rw [hread]
  simpa using loads_dumps data

/-- C6: when the CLI checks both today and tomorrow, the day list is built
in that order, and the loop stops at the first positive listing: if
today's check returns a listing, the whole loop returns exactly today's
result and world, so tomorrow's check is never performed. -/
theorem C6_cli_stops_at_first_listing (cd : Json) (dT dTm : PyDate)
    (tT tTm : TransportResult) (w : World) (info : Json)
    (h : (check_listing cd dT tT w).1 = .ok (some info)) :
    cliListingDays true true dT dTm tT tTm = [("today", dT, tT), ("tomorrow", dTm, tTm)] ∧
    cliCheckListings cd (cliListingDays true true dT dTm tT tTm) w =
      (.ok (some info), (check_listing cd dT tT w).2) := by
  refine ⟨rfl, ?_⟩
  have hp : check_listing cd dT tT w = (.ok (some info), (check_listing cd dT tT w).2) := by
    rw [← h]
  rw [show cliListingDays true true dT dTm tT tTm =
    [("today", dT, tT), ("tomorrow", dTm, tTm)] from rfl]
  rw [cliCheckListings, hp]

/-- C6 witness: a concrete run where today's check is positive; the loop
returns it and the final world is the one after today's check alone. -/
theorem C6_cli_stops_at_first_listing_witness :
    cliCheckListings (Json.obj [])
      (cliListingDays true true d0 d0
        (.success ⟨[], "\x7b\"is_listed\": true\x7d"⟩) (.failure "unused")) w0 =
      (.ok (some (Json.obj [("date", Json.str d0.dmy), ("serial_number", Json.null),
        ("court_name", Json.null), ("court_hall", Json.null), ("hearing_time", Json.null)])),
        (check_listing (Json.obj []) d0 (.success ⟨[], "\x7b\"is_listed\": true\x7d"⟩) w0).2) :=
  (C6_cli_stops_at_first_listing (Json.obj []) d0 d0
    (.success ⟨[], "\x7b\"is_listed\": true\x7d"⟩) (.failure "unused") w0
    (Json.obj [("date", Json.str d0.dmy), ("serial_number", Json.null),
      ("court_name", Json.null), ("court_hall", Json.null), ("hearing_time", Json.null)])
    (by rfl)).2

/-- C7: for every value of the `date` query parameter other than `today` or
`tomorrow` (compared case-insensitively, defaulting to `today` when
absent), the cause-list endpoint returns HTTP 400 with the explicit
invalid-date message and leaves the world untouched: no remote call is
issued, no configuration is changed, nothing is written. -/
theorem C7_causelist_invalid_date (args : List (String × String)) (now tom : PyDate)
    (t : TransportResult) (w : World)
    (h1 : ¬ lowerStr ((argsGet args "date").getD "today") = "today")
    (h2 : ¬ lowerStr ((argsGet args "date").getD "today") = "tomorrow") :
    api_get_cause_list args now tom t w =
      ((400, errObj "Invalid date parameter. Use \"today\" or \"tomorrow\""), w) := by
  unfold api_get_cause_list
  rw [if_neg h1, if_neg h2]

/-- C7 witness: `date=friday` gets the 400 invalid-date response with the
process state unchanged. -/
theorem C7_causelist_invalid_date_witness :
    api_get_cause_list [("date", "friday")] d0 d0 (.failure "unused") w0 =
      ((400, errObj "Invalid date parameter. Use \"today\" or \"tomorrow\""), w0) :=
  C7_causelist_invalid_date [("date", "friday")] d0 d0 (.failure "unused") w0
    (by decide) (by decide)

theorem get_case_by_cnr_scraper (cnr : Json) (t : TransportResult) (w : World) :
    (get_case_by_cnr cnr t w).2.scraper = w.scraper := by
  unfold get_case_by_cnr _make_request
  cases t <;> simp <;> (repeat' split) <;> simp

theorem get_case_by_details_scraper (ct cn cy : Json) (t : TransportResult) (w : World) :
    (get_case_by_details ct cn cy t w).2.scraper = w.scraper := by
  unfold get_case_by_details _make_request
  cases t <;> simp <;> (repeat' split) <;> simp

theorem check_listing_scraper (cd : Json) (date : PyDate) (t : TransportResult) (w : World) :
    (check_listing cd date t w).2.scraper = w.scraper := by
  unfold check_listing _make_request
  cases t <;> simp <;> (repeat' split) <;> simp

theorem download_case_pdf_scraper (cd : Json) (odir : String) (t : TransportResult)
    (w : World) : (download_case_pdf cd odir t w).2.scraper = w.scraper := by
  unfold download_case_pdf _make_request
  cases t <;> simp <;> (repeat' split) <;> simp

theorem download_cause_list_scraper (date : PyDate) (odir : String) (t : TransportResult)
    (w : World) : (download_cause_list date odir t w).2.scraper = w.scraper := by
  unfold download_cause_list _make_request
  cases t <;> simp <;> (repeat' split) <;> simp

theorem save_results_scraper (data : Json) (fn odir : String) (w : World) :
    (save_results data fn odir w).2.scraper = w.scraper := by
  unfold save_results
  simp

theorem api_search_cnr_sets_state (now : PyDate) (t : TransportResult) (w : World) :
    (api_search_cnr (some (Json.obj [("cnr", Json.str "X"), ("state_code", Json.str "MH")]))
      now t w).2.scraper.state_code = Json.str "MH" := by
  unfold api_search_cnr updateScraperConfig updateDistrictConfig get_case_by_cnr _make_request
  cases t with
  | failure e => simp [pyIn, pyIndex, Json.truthy]
  | success resp =>
    cases hj : resp.json with
    | none => simp [pyIn, pyIndex, Json.truthy, hj]
    | some j =>
      simp only [pyIn, pyIndex, hj]
      by_cases hjt : j.truthy = false <;> simp only [Json.truthy] at hjt <;>
        simp [hjt, Json.truthy]

/-- C8: every scraper operation leaves the shared configuration fields
`state_code` and `district_code` untouched, for every input and transport
outcome; by contrast a facade endpoint handler that receives a
`state_code` in its body does assign it to the shared scraper. -/
theorem C8_operations_preserve_config :
    (∀ cnr t w, (get_case_by_cnr cnr t w).2.scraper = w.scraper) ∧
    (∀ ct cn cy t w, (get_case_by_details ct cn cy t w).2.scraper = w.scraper) ∧
    (∀ cd date t w, (check_listing cd date t w).2.scraper = w.scraper) ∧
    (∀ cd odir t w, (download_case_pdf cd odir t w).2.scraper = w.scraper) ∧
    (∀ date odir t w, (download_cause_list date odir t w).2.scraper = w.scraper) ∧
    (∀ data fn odir w, (save_results data fn odir w).2.scraper = w.scraper) ∧
    (∀ now t w, (api_search_cnr
      (some (Json.obj [("cnr", Json.str "X"), ("state_code", Json.str "MH")]))
      now t w).2.scraper.state_code = Json.str "MH") :=
  ⟨get_case_by_cnr_scraper, get_case_by_details_scraper, check_listing_scraper,
    download_case_pdf_scraper, download_cause_list_scraper, save_results_scraper,
    api_search_cnr_sets_state⟩

theorem finish_200_shape (lookup : Option Json × World) (data : Json) (now tom : PyDate)
    (tT tTm : TransportResult)
    (h : (api_check_listing_finish lookup data now tom tT tTm).1.1 = 200) :
    ∃ cd listings, (api_check_listing_finish lookup data now tom tT tTm).1.2 =
      Json.obj [("success", Json.bool true),
        ("data", Json.obj [("case_details", cd), ("listings", Json.arr listings)]),
        ("is_listed", Json.bool (decide (0 < listings.length))),
        ("timestamp", Json.str now.iso)] := by
  unfold api_check_listing_finish at h ⊢
  (repeat' split at h) <;> (try simp [err500, errObj] at h) <;> (try simp_all) <;>
    (try exact ⟨_, _, ⟨rfl, rfl⟩, by simp⟩)

theorem api_check_listing_cases (body : Option Json) (now tom : PyDate)
    (tC tT tTm : TransportResult) (w : World) :
    (∃ lookup data2, api_check_listing body now tom tC tT tTm w =
        api_check_listing_finish lookup data2 now tom tT tTm) ∨
      (api_check_listing body now tom tC tT tTm w).1.1 ≠ 200 := by
  unfold api_check_listing
  (repeat' split) <;>
    first
    | (left; exact ⟨_, _, rfl⟩)
    | (right; simp [err500, errObj])

theorem api_check_listing_200_shape (body : Option Json) (now tom : PyDate)
    (tC tT tTm : TransportResult) (w : World)
    (h : (api_check_listing body now tom tC tT tTm w).1.1 = 200) :
    ∃ cd listings, (api_check_listing body now tom tC tT tTm w).1.2 =
      Json.obj [("success", Json.bool true),
        ("data", Json.obj [("case_details", cd), ("listings", Json.arr listings)]),
        ("is_listed", Json.bool (decide (0 < listings.length))),
        ("timestamp", Json.str now.iso)] := by
  rcases api_check_listing_cases body now tom tC tT tTm w with ⟨lookup, data2, heq⟩ | hne
  · rw [heq] at h ⊢
    exact finish_200_shape _ _ _ _ _ _ h
  · exact absurd h hne

theorem finish_no_flags (cd : Json) (kvs : List (String × Json)) (w : World)
    (now tom : PyDate) (tT tTm : TransportResult)
    (hcd : cd.truthy = true)
    (hT : (Json.getD (Json.obj kvs) "check_today" (Json.bool false)).truthy = false)
    (hTm : (Json.getD (Json.obj kvs) "check_tomorrow" (Json.bool false)).truthy = false) :
    api_check_listing_finish (some cd, w) (Json.obj kvs) now tom tT tTm =
      ((200, Json.obj [("success", Json.bool true),
        ("data", Json.obj [("case_details", cd), ("listings", Json.arr [])]),
        ("is_listed", Json.bool false), ("timestamp", Json.str now.iso)]), w) := by
  unfold api_check_listing_finish checkOneDay
  simp only [Json.getD] at hT hTm
  simp [pyGetD, hcd, hT, hTm]

theorem api_check_listing_cases2 (data : Json) (now tom : PyDate)
    (tC tT tTm : TransportResult) (w : World) :
    (∃ lookup, api_check_listing (some data) now tom tC tT tTm w =
        api_check_listing_finish lookup data now tom tT tTm) ∨
      (api_check_listing (some data) now tom tC tT tTm w).1.1 ≠ 200 := by
  unfold api_check_listing
  (repeat' split) <;> (try injections) <;> (try subst_vars) <;>
    first
    | (left; exact ⟨_, rfl⟩)
    | (right; simp [err500, errObj])

theorem api_check_listing_no_flags (kvs : List (String × Json)) (now tom : PyDate)
    (tC tT tTm : TransportResult) (w : World)
    (hT : (Json.getD (Json.obj kvs) "check_today" (Json.bool false)).truthy = false)
    (hTm : (Json.getD (Json.obj kvs) "check_tomorrow" (Json.bool false)).truthy = false)
    (h200 : (api_check_listing (some (Json.obj kvs)) now tom tC tT tTm w).1.1 = 200) :
    ∃ cd, (api_check_listing (some (Json.obj kvs)) now tom tC tT tTm w).1.2 =
      Json.obj [("success", Json.bool true),
        ("data", Json.obj [("case_details", cd), ("listings", Json.arr [])]),
        ("is_listed", Json.bool false), ("timestamp", Json.str now.iso)] := by
  rcases api_check_listing_cases2 (Json.obj kvs) now tom tC tT tTm w with ⟨lookup, heq⟩ | hne
  · rw [heq] at h200 ⊢
    rcases lookup with ⟨cdo, w2⟩
    cases cdo with
    | none =>
      rw [show api_check_listing_finish (none, w2) (Json.obj kvs) now tom tT tTm =
        ((404, errObj "Case not found"), w2) from rfl] at h200
      simp at h200
    | some cd =>
      by_cases hcd : cd.truthy = false
      · have h404 : api_check_listing_finish (some cd, w2) (Json.obj kvs) now tom tT tTm =
            ((404, errObj "Case not found"), w2) := by
          unfold api_check_listing_finish
          simp [hcd]
        rw [h404] at h200
        simp at h200
      · have hcd' : cd.truthy = true := by
          cases h : cd.truthy
          · exact absurd h hcd
          · rfl
        rw [finish_no_flags cd kvs w2 now tom tT tTm hcd' hT hTm]
        exact ⟨cd, rfl⟩
  · exact absurd h200 hne

/-- C9: when `/api/listing/check` resolves a case (responds 200) and the
body is a JSON object in which neither `check_today` nor `check_tomorrow`
is truthy, the response is HTTP 200 with `success` true, an empty
`listings` array and `is_listed` false; and in every 200 response of this
endpoint, `is_listed` is precisely the non-emptiness of the `listings`
array. -/
theorem C9_is_listed_iff_listings :
    (∀ (kvs : List (String × Json)) (now tom : PyDate) (tC tT tTm : TransportResult)
      (w : World),
      (Json.getD (Json.obj kvs) "check_today" (Json.bool false)).truthy = false →
      (Json.getD (Json.obj kvs) "check_tomorrow" (Json.bool false)).truthy = false →
      (api_check_listing (some (Json.obj kvs)) now tom tC tT tTm w).1.1 = 200 →
      ∃ cd, (api_check_listing (some (Json.obj kvs)) now tom tC tT tTm w).1.2 =
        Json.obj [("success", Json.bool true),
          ("data", Json.obj [("case_details", cd), ("listings", Json.arr [])]),
          ("is_listed", Json.bool false), ("timestamp", Json.str now.iso)]) ∧
    (∀ (body : Option Json) (now tom : PyDate) (tC tT tTm : TransportResult) (w : World),
      (api_check_listing body now tom tC tT tTm w).1.1 = 200 →
      ∃ cd listings, (api_check_listing body now tom tC tT tTm w).1.2 =
        Json.obj [("success", Json.bool true),
          ("data", Json.obj [("case_details", cd), ("listings", Json.arr listings)]),
          ("is_listed", Json.bool (decide (0 < listings.length))),
          ("timestamp", Json.str now.iso)]) :=
  ⟨api_check_listing_no_flags, api_check_listing_200_shape⟩

/-- C9 witness: a concrete resolved case with no flags set gets the 200
response with empty listings and `is_listed` false. -/
theorem C9_is_listed_iff_listings_witness :
    ∃ cd, (api_check_listing (some (Json.obj [("cnr", Json.str "X")])) d0 d0
      (.success ⟨[], "\x7b\"case_id\": \"C1\"\x7d"⟩) (.failure "unused") (.failure "unused")
      w0).1.2 =
      Json.obj [("success", Json.bool true),
        ("data", Json.obj [("case_details", cd), ("listings", Json.arr [])]),
        ("is_listed", Json.bool false), ("timestamp", Json.str d0.iso)] :=
  C9_is_listed_iff_listings.1 [("cnr", Json.str "X")] d0 d0
    (.success ⟨[], "\x7b\"case_id\": \"C1\"\x7d"⟩) (.failure "unused") (.failure "unused")
    w0 rfl rfl rfl

/-- C10: `download_case_pdf` creates the output directory before issuing
the remote request, so the directory exists afterwards for every input;
in particular on a failed request the result is null and no file is
written, yet the directory has still been created. -/
theorem C10_pdf_dir_created (cd : Json) (output_dir : String) (t : TransportResult)
    (w : World) :
    output_dir ∈ (download_case_pdf cd output_dir t w).2.dirs ∧
    (∀ (ckvs : List (String × Json)) (e : String) (w' : World),
      (download_case_pdf (Json.obj ckvs) output_dir (.failure e) w').1 = .ok none ∧
      (download_case_pdf (Json.obj ckvs) output_dir (.failure e) w').2.files = w'.files ∧
      output_dir ∈ (download_case_pdf (Json.obj ckvs) output_dir (.failure e) w').2.dirs) := by
  constructor
  · unfold download_case_pdf _make_request
    cases t <;> simp <;> (repeat' split) <;> (try simp) <;>
      exact mkdirExistOk_dirs_mem _ _
  · intro ckvs e w'
    refine ⟨?_, ?_, ?_⟩ <;> simp [download_case_pdf, _make_request, pyGetD] <;>
      exact mkdirExistOk_dirs_mem _ _
